import Mathlib

/-!
Verification of the Cronlytic MCP server core against its specification.

This file gives a shallow embedding, in Lean, of the parts of the
repository that the checked properties are about:

* `src/cronlytic_client.py` — the HTTP client `CronlyticAPIClient`:
  the retry/backoff loop of `_make_request` with its status-code-to-error
  mapping, and `health_check`;
* `src/utils/errors.py` — the typed error taxonomy;
* `src/utils/validation.py` — the field validators,
  `validate_complete_job_data`, and `get_next_execution_times`;
* `src/tools/job_management.py` — `delete_job_tool`, `list_jobs_tool`;
* `src/tools/job_control.py` — `get_job_logs_tool`.

Python data is modelled by the `PyVal` type below; the HTTP transport and
the remote API are modelled as explicit function parameters, so that one
logical request becomes a pure function of the transport's behaviour.
Machine floats occur only as `retry_delay` (scaled by exact powers of two)
and are modelled as rationals.
-/

/-- Python values as they occur in the JSON-derived data handled by this
server.  Dictionary keys are modelled as strings: every dictionary reaching
the embedded code comes from JSON tool arguments or JSON response bodies,
whose keys are strings.  Floats are modelled as rationals. -/
inductive PyVal where
  | none : PyVal
  | bool : Bool → PyVal
  | int : Int → PyVal
  | float : ℚ → PyVal
  | str : String → PyVal
  | list : List PyVal → PyVal
  | dict : List (String × PyVal) → PyVal
deriving Repr

/-- A single-quote character, used when rendering Python message strings. -/
def sQuote : String := "\x27"

/-- Python type name of a modelled value (as in CPython error messages). -/
def pyTypeName : PyVal → String
  | .none => "NoneType"
  | .bool _ => "bool"
  | .int _ => "int"
  | .float _ => "float"
  | .str _ => "str"
  | .list _ => "list"
  | .dict _ => "dict"

/-- Python truthiness, as tested by `if not x`. -/
def pyTruthy : PyVal → Bool
  | .none => false
  | .bool b => b
  | .int n => n != 0
  | .float q => q != 0
  | .str s => s != ""
  | .list l => !l.isEmpty
  | .dict d => !d.isEmpty

/-- Python `str()` of a modelled value.  It is used only inside
human-readable message strings; the rendering of containers and floats is
approximated (no checked property depends on these strings). -/
def pyToStr : PyVal → String
  | .none => "None"
  | .bool true => "True"
  | .bool false => "False"
  | .int n => toString n
  | .float q => toString q
  | .str s => s
  | .list _ => "[...]"
  | .dict _ => "\x7b...\x7d"

/-- Membership test `k in d` on a modelled dictionary. -/
def pyDictHas (d : List (String × PyVal)) (k : String) : Bool :=
  d.any (fun p => p.1 == k)

/-- Python `d.get(k, default)` on a modelled dictionary (the association
list always has pairwise distinct keys in this development, matching a
Python dict). -/
def pyDictGetD (d : List (String × PyVal)) (k : String) (dflt : PyVal) : PyVal :=
  match d.find? (fun p => p.1 == k) with
  | some p => p.2
  | Option.none => dflt

/-- Python `x.get(k, default)` on an arbitrary value: a lookup when `x` is a
dictionary, an `AttributeError` (rendered like CPython) otherwise — parsed
JSON response bodies need not be objects. -/
def pyGetAttr (v : PyVal) (k : String) (dflt : PyVal) : Except String PyVal :=
  match v with
  | .dict d => .ok (pyDictGetD d k dflt)
  | _ => .error (sQuote ++ pyTypeName v ++ sQuote ++ " object has no attribute " ++ sQuote ++ k ++ sQuote)

/-- Characters stripped by Python `str.strip()` (the ASCII whitespace set;
the non-ASCII Unicode spaces Python also strips are not modelled). -/
def pyIsSpace (c : Char) : Bool :=
  c == ' ' || c == '\t' || c == '\n' || c == '\r' || c == '\x0b' || c == '\x0c'

/-- Python `str.strip()` on a character list. -/
def stripList (l : List Char) : List Char :=
  ((l.dropWhile pyIsSpace).reverse.dropWhile pyIsSpace).reverse

/-- Python `str.strip()`. -/
def pyStrip (s : String) : String := String.mk (stripList s.toList)

/-- Splitting a character list at every element satisfying `p`, keeping
empty segments (the splitting primitive under Python `str.split`). -/
def splitPredAux (p : Char → Bool) : List Char → List Char → List (List Char)
  | [], acc => [acc.reverse]
  | x :: xs, acc =>
    if p x then acc.reverse :: splitPredAux p xs []
    else splitPredAux p xs (x :: acc)

/-- Python `s.split(sep)` for a one-character separator: split at every
occurrence, keeping empty pieces. -/
def pySplitOnChar (c : Char) (s : String) : List String :=
  (splitPredAux (fun x => x == c) s.toList []).map String.mk

/-- Python `str.split()` with no argument: split on whitespace runs and
discard empty pieces. -/
def pySplitWs (s : String) : List String :=
  ((splitPredAux pyIsSpace s.toList []).map String.mk).filter (fun t => t != "")

/-- Python `str.upper()` on the ASCII letters (non-ASCII case mapping is
not modelled; no input this repository validates contains any). -/
def pyCharUpper (c : Char) : Char :=
  if 'a' ≤ c ∧ c ≤ 'z' then Char.ofNat (c.toNat - 32) else c

/-- Python `str.upper()`. -/
def pyUpper (s : String) : String := String.mk (s.toList.map pyCharUpper)

/-- Value of a list of decimal digits. -/
def digitsToNat (l : List Char) : Nat :=
  l.foldl (fun a c => a * 10 + (c.toNat - 48)) 0

/-- Parse of a plain non-negative decimal numeral. -/
def pyStrToNat? (s : String) : Option Nat :=
  if s.toList ≠ [] ∧ s.toList.all Char.isDigit then Option.some (digitsToNat s.toList)
  else Option.none

/-- Python `int(s)` for a string: optional surrounding whitespace, optional
sign, then at least one decimal digit (digit-group underscores are not
modelled); `Option.none` models the `ValueError`. -/
def pyIntOfStr (s : String) : Option Int :=
  let t := (pyStrip s).toList
  let core : List Char → Option Int := fun ds =>
    if ds ≠ [] ∧ ds.all Char.isDigit then
      Option.some (Int.ofNat (digitsToNat ds))
    else Option.none
  match t with
  | '-' :: rest => (core rest).map (fun n => -n)
  | '+' :: rest => core rest
  | _ => core t

/-! ## Error taxonomy (`src/utils/errors.py`)

Each class of `errors.py` becomes one constructor, carrying the
kind-specific payload its `__init__` stores.  Message arguments that the
client fills in from a response body can be arbitrary parsed JSON values in
Python, so those message fields are `PyVal`. -/

/-- Error taxonomy of `utils/errors.py`. -/
inductive CronErr where
  | validationError (field : String) (msg : String) (value : PyVal)
  | authenticationError (msg : PyVal)
  | authorizationError (msg : PyVal) (plan currentCount maxAllowed : PyVal)
  | notFoundError (resourceType resourceId : String)
  | apiError (msg : PyVal) (statusCode : Option Nat) (responseData : PyVal)
  | connectionError (msg : String)
  | rateLimitError (msg : String) (retryAfter : Option Int)
  | timeoutError (msg : String)
deriving Repr

/-- Python class name of a taxonomy error (`e.__class__.__name__`, used by
the tool handlers when building failure envelopes). -/
def CronErr.className : CronErr → String
  | .validationError .. => "ValidationError"
  | .authenticationError .. => "AuthenticationError"
  | .authorizationError .. => "AuthorizationError"
  | .notFoundError .. => "NotFoundError"
  | .apiError .. => "APIError"
  | .connectionError .. => "ConnectionError"
  | .rateLimitError .. => "RateLimitError"
  | .timeoutError .. => "TimeoutError"

/-- The error kind of the specification's taxonomy table (§4.1). -/
inductive ErrKind where
  | validation | authentication | authorization | notFound
  | rateLimit | timeout | connection | apiGeneric
deriving DecidableEq, Repr

/-- Kind of a taxonomy error. -/
def CronErr.kind : CronErr → ErrKind
  | .validationError .. => .validation
  | .authenticationError .. => .authentication
  | .authorizationError .. => .authorization
  | .notFoundError .. => .notFound
  | .apiError .. => .apiGeneric
  | .connectionError .. => .connection
  | .rateLimitError .. => .rateLimit
  | .timeoutError .. => .timeout

/-- Python `str(e)` of a taxonomy error: the message passed to
`Exception.__init__` (see `CronlyticError.__init__`). -/
def CronErr.pyStr : CronErr → String
  | .validationError f m _ =>
      "Validation error for field " ++ sQuote ++ f ++ sQuote ++ ": " ++ m
  | .authenticationError m => pyToStr m
  | .authorizationError m _ _ _ => pyToStr m
  | .notFoundError t i => t ++ " with ID " ++ sQuote ++ i ++ sQuote ++ " not found"
  | .apiError m _ _ => pyToStr m
  | .connectionError m => m
  | .rateLimitError m _ => m
  | .timeoutError m => m

/-- The `message` attribute of a taxonomy error (same string as `str(e)`). -/
def CronErr.message : CronErr → String := CronErr.pyStr

/-! ## The HTTP client (`src/cronlytic_client.py`)

`_make_request` is embedded as a pure function of the transport, which is
modelled as a map from attempt index to that attempt's outcome.  Besides
the request result the embedding returns the number of attempts performed
and the list of backoff sleeps issued, in order, so that the retry-budget
properties can be stated. -/

/-- The configuration fields of `AuthConfig` read by `_make_request`
(`max_retries ≥ 0` integer, `retry_delay` float seconds, `timeout` positive
integer seconds). -/
structure ClientConfig where
  maxRetries : Nat
  retryDelay : ℚ
  timeout : Int
deriving Repr

/-- Raw HTTP response body as seen by lines 121-128 of `_make_request`:
either a body that `response.json()` parses, or a plain text body
(`response.json()` raises `ContentTypeError`/`ValueError`). -/
inductive RawBody where
  | json : PyVal → RawBody
  | text : String → RawBody
deriving Repr

/-- Lines 119-128: try the JSON parse; on failure fall back to the text
body, a non-empty text becoming a one-key message dict and an empty text
leaving the initial empty dict. -/
def parseResponseData : RawBody → PyVal
  | .json v => v
  | .text t => if t != "" then .dict [("message", .str t)] else .dict []

/-- Outcome of one attempt at the transport level: an HTTP response
(status, optional `Retry-After` header, raw body) or one of the exception
families distinguished by the except clauses of `_make_request`
(`asyncio.TimeoutError`; `ClientConnectorError`/`aiohttp.ClientError`; any
other exception, carrying its `str()`). -/
inductive AttemptOutcome where
  | http : Nat → Option String → RawBody → AttemptOutcome
  | timeoutExc : AttemptOutcome
  | connectExc : String → AttemptOutcome
  | otherExc : String → AttemptOutcome

/-- Classification of one loop iteration of `_make_request`:
`success` — the attempt returned (status 200); `raiseNow` — it raised one
of the four classes the clause at line 193 re-raises, ending the loop with
no retry; `retryable` — it landed in one of the retrying except clauses
(timeout, connection, or the generic `except Exception`), the carried error
being the one raised if this was the final attempt. -/
inductive StepResult where
  | success : PyVal → StepResult
  | raiseNow : CronErr → StepResult
  | retryable : CronErr → StepResult

/-- Line 199: `APIError(f"Unexpected error: {e}")` — the wrapper put around
an exception caught by the generic except clause, raised when the attempt
budget is exhausted.  The wrapped `APIError` has no status code and empty
response data. -/
def wrapUnexpected (excStr : String) : CronErr :=
  .apiError (.str ("Unexpected error: " ++ excStr)) Option.none (.dict [])

/-- Status-code dispatch of `_make_request`, lines 131-181, applied to the
parsed response data.  The taxonomy errors raised for 401/403/404/429 are
re-raised unretried by line 193; the `APIError`s raised for 422 and for
unmapped statuses are *not* in that tuple, so they fall to the generic
`except Exception` clause and are retried, finally surfacing wrapped as
`APIError("Unexpected error: ...")`.  A `detail` lookup on a non-dict JSON
body raises `AttributeError`, which likewise lands in the generic clause. -/
def attemptHTTP (endpoint : String) (status : Nat) (retryAfter : Option String)
    (rd : PyVal) : StepResult :=
  if status == 200 then
    .success rd
  else if status == 401 then
    match pyGetAttr rd "detail" (.str "Authentication failed") with
    | .ok d => .raiseNow (.authenticationError d)
    | .error m => .retryable (wrapUnexpected m)
  else if status == 403 then
    match pyGetAttr rd "detail" (.dict []) with
    | .ok detail =>
      match detail with
      | .dict dd =>
        if pyDictHas dd "job_count" then
          .raiseNow (.authorizationError (pyDictGetD dd "error" (.str "Authorization failed"))
            (pyDictGetD dd "plan" .none) (pyDictGetD dd "job_count" .none)
            (pyDictGetD dd "max_jobs" .none))
        else
          .raiseNow (.authorizationError (.str "Authorization failed") .none .none .none)
      | .str s => .raiseNow (.authorizationError (.str s) .none .none .none)
      | _ => .raiseNow (.authorizationError (.str "Authorization failed") .none .none .none)
    | .error m => .retryable (wrapUnexpected m)
  else if status == 404 then
    .raiseNow (.notFoundError "resource" ((pySplitOnChar '/' endpoint).getLastD ""))
  else if status == 422 then
    match pyGetAttr rd "detail" (.str "Validation error") with
    | .ok d =>
      .retryable (wrapUnexpected (CronErr.pyStr
        (.apiError (.str ("Validation error: " ++ pyToStr d)) (Option.some status) rd)))
    | .error m => .retryable (wrapUnexpected m)
  else if status == 429 then
    match retryAfter with
    | Option.none => .raiseNow (.rateLimitError "Rate limit exceeded" Option.none)
    | Option.some h =>
      if h == "" then .raiseNow (.rateLimitError "Rate limit exceeded" Option.none)
      else
        match pyIntOfStr h with
        | Option.some n => .raiseNow (.rateLimitError "Rate limit exceeded" (Option.some n))
        | Option.none =>
          .retryable (wrapUnexpected
            ("invalid literal for int() with base 10: " ++ sQuote ++ h ++ sQuote))
  else
    match pyGetAttr rd "detail" (.str ("HTTP " ++ toString status)) with
    | .ok m =>
      .retryable (wrapUnexpected (CronErr.pyStr (.apiError m (Option.some status) rd)))
    | .error m => .retryable (wrapUnexpected m)

/-- One loop iteration of `_make_request`, classifying the attempt's
transport outcome (lines 118-200). -/
def attemptStep (endpoint : String) (timeoutSecs : Int) :
    AttemptOutcome → StepResult
  | .http st ra body => attemptHTTP endpoint st ra (parseResponseData body)
  | .timeoutExc =>
      .retryable (.timeoutError ("Request timeout after " ++ toString timeoutSecs ++ "s"))
  | .connectExc m => .retryable (.connectionError ("Connection failed: " ++ m))
  | .otherExc m => .retryable (wrapUnexpected m)

/-- Observable behaviour of one `_make_request` call: its result (raised
taxonomy error or returned body), the number of attempts performed, and the
backoff sleeps issued, in order. -/
structure RunResult where
  result : Except CronErr PyVal
  attempts : Nat
  sleeps : List ℚ
deriving Repr

/-- The retry loop of `_make_request`, lines 110-209.  `attempt` is the
loop index of `for attempt in range(max_retries + 1)` and `fuel` the number
of iterations the range still allows (`max_retries + 1 - attempt`); fuel 0
is the unreachable guard at line 209.  A `retryable` outcome on the final
attempt (`attempt == max_retries`) raises its error from inside the except
clause; otherwise line 204 sleeps `retry_delay * 2 ** attempt` and the loop
continues. -/
def makeRequestLoop (cfg : ClientConfig) (transport : Nat → AttemptOutcome)
    (endpoint : String) : Nat → Nat → RunResult
  | _, 0 => ⟨.error (.apiError (.str "Maximum retries exceeded") Option.none (.dict [])), 0, []⟩
  | attempt, fuel + 1 =>
    match attemptStep endpoint cfg.timeout (transport attempt) with
    | .success v => ⟨.ok v, 1, []⟩
    | .raiseNow e => ⟨.error e, 1, []⟩
    | .retryable e =>
      if attempt == cfg.maxRetries then ⟨.error e, 1, []⟩
      else
        let rest := makeRequestLoop cfg transport endpoint (attempt + 1) fuel
        ⟨rest.result, rest.attempts + 1, cfg.retryDelay * 2 ^ attempt :: rest.sleeps⟩

/-- Embedding of `CronlyticAPIClient._make_request` as a function of the
transport behaviour. -/
def make_request (cfg : ClientConfig) (transport : Nat → AttemptOutcome)
    (endpoint : String) : RunResult :=
  makeRequestLoop cfg transport endpoint 0 (cfg.maxRetries + 1)

/-- Kind of taxonomy error the specification's table assigns to each of the
four non-retryable status codes. -/
def nonRetryKind (st : Nat) : ErrKind :=
  if st = 401 then .authentication
  else if st = 403 then .authorization
  else if st = 404 then .notFound
  else .rateLimit

/-! ## Input validation (`src/utils/validation.py`)

Each validator takes an arbitrary `PyVal` (the tool handlers feed raw
argument values in) and either returns the normalized value, raises a
`ValidationError`, or crashes with an unhandled exception (the
`AttributeError` Python raises when `.strip()` is called on a truthy
non-string). -/

/-- CPython `AttributeError` message for a missing attribute. -/
def noAttrMsg (v : PyVal) (a : String) : String :=
  sQuote ++ pyTypeName v ++ sQuote ++ " object has no attribute " ++ sQuote ++ a ++ sQuote

/-- Rendering of Python `type(x)` inside an f-string: `<class 'name'>`. -/
def pyTypeClassStr (v : PyVal) : String :=
  "<class " ++ sQuote ++ pyTypeName v ++ sQuote ++ ">"

/-- Failure of a validator: a raised `ValidationError` (field name, message,
offending value — see `errors.py` lines 23-30) or an unhandled exception
(modelled by its message). -/
inductive VErr where
  | validation (field : String) (msg : String) (value : PyVal)
  | crash (msg : String)
deriving Repr

/-- Character class of `JOB_NAME_PATTERN` (`[a-zA-Z0-9_-]`). -/
def isNameChar (c : Char) : Bool :=
  c.isAlphanum || c == '_' || c == '-'

/-- The anchored regex `JOB_NAME_PATTERN = ^[a-zA-Z0-9_-]+$` as a predicate
(the `$`-before-trailing-newline subtlety of `re` cannot fire: the matched
string has been stripped). -/
def JOB_NAME_PATTERN (s : String) : Bool :=
  !s.isEmpty && s.toList.all isNameChar

/-- Character class of `CRON_FIELD_PATTERN` (digits, `*`, comma, slash, hyphen). -/
def isCronChar (c : Char) : Bool :=
  c.isDigit || c == '*' || c == ',' || c == '/' || c == '-'

/-- The anchored regex `CRON_FIELD_PATTERN` (one or more cron characters, anchored) as a predicate. -/
def CRON_FIELD_PATTERN (s : String) : Bool :=
  !s.isEmpty && s.toList.all isCronChar

/-- Embedding of `validate_job_name` (validation.py lines 16-53). -/
def validate_job_name (v : PyVal) : Except VErr PyVal :=
  if !pyTruthy v then .error (.validation "name" "Job name cannot be empty" v)
  else
    match v with
    | .str s0 =>
      let name := pyStrip s0
      if name.length = 0 then
        .error (.validation "name" "Job name cannot be empty" (.str name))
      else if name.length > 50 then
        .error (.validation "name" "Job name cannot exceed 50 characters" (.str name))
      else if !JOB_NAME_PATTERN name then
        .error (.validation "name"
          "Job name can only contain letters, numbers, hyphens (-), and underscores (_)"
          (.str name))
      else .ok (.str name)
    | _ => .error (.crash (noAttrMsg v "strip"))

/-- Scheme characters after the first (`urllib.parse`): letters, digits,
and `+`, `-`, `.`. -/
def isSchemeChar (c : Char) : Bool :=
  c.isAlphanum || c == '+' || c == '-' || c == '.'

/-- Model of `urllib.parse.urlparse` restricted to the two components
`validate_url` inspects: `scheme` — the lowercased prefix before the first
colon when it starts with a letter and continues with scheme characters,
empty otherwise — and `netloc` — the run after a leading `//` of the
remainder, up to `/`, `?` or `#`.  The bracket edge cases where CPython
raises `ValueError` are not modelled (no checked property exercises
them). -/
def pyUrlParse (url : String) : String × String :=
  let cs := url.toList
  let pre := cs.takeWhile (fun c => c != ':')
  let schemeOk := decide (pre.length < cs.length) && !pre.isEmpty &&
    pre.headI.isAlpha && pre.all isSchemeChar
  let scheme := if schemeOk then String.mk (pre.map Char.toLower) else ""
  let rest := if schemeOk then cs.drop (pre.length + 1) else cs
  let netloc :=
    match rest with
    | '/' :: '/' :: r =>
      String.mk (r.takeWhile (fun c => c != '/' && c != '?' && c != '#'))
    | _ => ""
  (scheme, netloc)

/-- Embedding of `validate_url` (validation.py lines 56-100).  The
`localhost` check at lines 93-95 is a no-op in the source (`pass`). -/
def validate_url (v : PyVal) : Except VErr PyVal :=
  if !pyTruthy v then .error (.validation "url" "URL cannot be empty" v)
  else
    match v with
    | .str s0 =>
      let url := pyStrip s0
      if url = "" then .error (.validation "url" "URL cannot be empty" (.str url))
      else
        let parsed := pyUrlParse url
        if parsed.1 = "" then
          .error (.validation "url"
            "URL must include a scheme (http:// or https://)" (.str url))
        else if parsed.1 ≠ "http" ∧ parsed.1 ≠ "https" then
          .error (.validation "url" "URL scheme must be http:// or https://" (.str url))
        else if parsed.2 = "" then
          .error (.validation "url" "URL must include a domain name" (.str url))
        else .ok (.str url)
    | _ => .error (.crash (noAttrMsg v "strip"))

/-- The `allowed_methods` set of `validate_http_method`. -/
def allowedMethods : List String :=
  ["GET", "POST", "PUT", "DELETE", "PATCH", "HEAD", "OPTIONS"]

/-- `sorted(allowed_methods)`, as interpolated into the error message. -/
def allowedMethodsSorted : List String :=
  ["DELETE", "GET", "HEAD", "OPTIONS", "PATCH", "POST", "PUT"]

/-- Embedding of `validate_http_method` (validation.py lines 103-130).
`pyUpper` matches Python `str.upper()` on ASCII; non-ASCII letters
are not modelled. -/
def validate_http_method (v : PyVal) : Except VErr PyVal :=
  if !pyTruthy v then .error (.validation "method" "HTTP method cannot be empty" v)
  else
    match v with
    | .str s0 =>
      let m := pyUpper (pyStrip s0)
      if allowedMethods.contains m then .ok (.str m)
      else
        .error (.validation "method"
          ("HTTP method must be one of: " ++ String.intercalate ", " allowedMethodsSorted)
          (.str m))
    | _ => .error (.crash (noAttrMsg v "strip"))

/-- Bounded numeric literal of a cron field part. -/
def cronNumOk (lo hi : Nat) (s : String) : Bool :=
  match pyStrToNat? s with
  | Option.some n => lo ≤ n && n ≤ hi
  | Option.none => false

/-- A cron range: `*`, a number, or `a-b`. -/
def cronRangeOk (lo hi : Nat) (r : String) : Bool :=
  if r == "*" then true
  else
    match pySplitOnChar '-' r with
    | [a] => cronNumOk lo hi a
    | [a, b] => cronNumOk lo hi a && cronNumOk lo hi b
    | _ => false

/-- A cron part: a range with an optional positive `/step`. -/
def cronPartOk (lo hi : Nat) (p : String) : Bool :=
  match pySplitOnChar '/' p with
  | [r] => cronRangeOk lo hi r
  | [r, st] =>
    cronRangeOk lo hi r &&
      (match pyStrToNat? st with
      | Option.some n => decide (0 < n)
      | Option.none => false)
  | _ => false

/-- A cron field: a comma-separated list of parts. -/
def cronFieldOk (lo hi : Nat) (f : String) : Bool :=
  (pySplitOnChar ',' f).all (cronPartOk lo hi)

/-- Modelled from the external `croniter` library (no version is pinned in
the sources under `src/`): whether `croniter(expression)` construction
succeeds.  Only the numeric 5-field subset is modelled — month/day names,
the 6-field seconds format and the hash/`L` extensions are outside what
this repository's validated inputs can contain. -/
def croniterAccepts (expr : String) : Bool :=
  match pySplitWs expr with
  | [mi, h, dom, mon, dow] =>
    cronFieldOk 0 59 mi && cronFieldOk 0 23 h && cronFieldOk 1 31 dom &&
      cronFieldOk 1 12 mon && cronFieldOk 0 7 dow
  | _ => false

/-- Approximation of the `croniter` `ValueError` message for a rejected
expression (no checked property depends on this string). -/
def croniterErrMsg (expr : String) : String :=
  "[" ++ expr ++ "] is not acceptable"

/-- The field names used at line 169. -/
def cronFieldNames : List String := ["minute", "hour", "day", "month", "day-of-week"]

/-- Lines 167-174 of `validate_cron_expression`: message for the first
field failing `CRON_FIELD_PATTERN`, if any. -/
def cronFieldsCheck : List String → Nat → Option String
  | [], _ => Option.none
  | f :: rest, i =>
    if !CRON_FIELD_PATTERN f then
      Option.some ("Invalid " ++ cronFieldNames.getD i "" ++ " field: " ++ sQuote ++ f ++
        sQuote ++ ". Only numbers, *, -, /, and , are allowed")
    else cronFieldsCheck rest (i + 1)

/-- Embedding of `validate_cron_expression` (validation.py lines 133-192).
The croniter construction plus `get_next()` probe of lines 177-190 is
modelled by `croniterAccepts` (`get_next()` never returns `None` in
croniter, so the `is None` branch adds nothing). -/
def validate_cron_expression (v : PyVal) : Except VErr PyVal :=
  if !pyTruthy v then
    .error (.validation "cron_expression" "Cron expression cannot be empty" v)
  else
    match v with
    | .str s0 =>
      let expression := pyStrip s0
      if expression = "" then
        .error (.validation "cron_expression" "Cron expression cannot be empty"
          (.str expression))
      else
        let fields := pySplitWs expression
        if fields.length ≠ 5 then
          .error (.validation "cron_expression"
            "Cron expression must have exactly 5 fields (minute hour day month day-of-week)"
            (.str expression))
        else
          match cronFieldsCheck fields 0 with
          | Option.some badmsg =>
            .error (.validation "cron_expression" badmsg (.str expression))
          | Option.none =>
            if croniterAccepts expression then .ok (.str expression)
            else
              .error (.validation "cron_expression"
                ("Invalid cron expression: " ++ croniterErrMsg expression) (.str expression))
    | _ => .error (.crash (noAttrMsg v "strip"))

/-- Assignment `d[k] = v` on the association-list model of a Python dict:
replace in place when the key exists (keeping its position), else append. -/
def dictSet (d : List (String × PyVal)) (k : String) (v : PyVal) :
    List (String × PyVal) :=
  if d.any (fun p => p.1 == k) then
    d.map (fun p => if p.1 == k then (k, v) else p)
  else d ++ [(k, v)]

/-- The `for key, value in headers.items()` loop of `validate_headers`
(lines 218-237); `acc` is `validated_headers`.  The `isinstance(key, str)`
branch at lines 219-222 is unreachable in this model, whose dictionary keys
are strings. -/
def validateHeaderItems (acc : List (String × PyVal)) :
    List (String × PyVal) → Except VErr (List (String × PyVal))
  | [] => .ok acc
  | (k, val) :: rest =>
    match val with
    | .str vs =>
      let k2 := pyStrip k
      let v2 := pyStrip vs
      if k2 = "" then .error (.validation "headers" "Header key cannot be empty" (.str k2))
      else validateHeaderItems (dictSet acc k2 (.str v2)) rest
    | _ =>
      .error (.validation "headers"
        ("Header value must be a string, got " ++ pyTypeClassStr val ++ " for key " ++
          sQuote ++ k ++ sQuote) val)

/-- Embedding of `validate_headers` (validation.py lines 195-239). -/
def validate_headers (v : PyVal) : Except VErr PyVal :=
  match v with
  | .none => .ok (.dict [])
  | .dict items => (validateHeaderItems [] items).map .dict
  | _ => .error (.validation "headers" "Headers must be a dictionary" v)

/-- Embedding of `validate_request_body` (validation.py lines 242-264). -/
def validate_request_body (v : PyVal) : Except VErr PyVal :=
  match v with
  | .none => .ok (.str "")
  | .str s => .ok (.str s)
  | _ =>
    .error (.validation "body"
      ("Request body must be a string, got " ++ pyTypeClassStr v) v)

/-- The `required_fields` list of `validate_complete_job_data` (line 327). -/
def requiredFields : List String :=
  ["name", "url", "method", "headers", "body", "cron_expression"]

/-- Embedding of `validate_complete_job_data` (validation.py lines
310-343): the required-key check in order, then each field validator in
the fixed order name, url, method, headers, body, cron_expression, the
results collected into a fresh dict. -/
def validate_complete_job_data (v : PyVal) : Except VErr PyVal :=
  match v with
  | .dict data =>
    match requiredFields.find? (fun f => !pyDictHas data f) with
    | Option.some f =>
      .error (.validation f
        ("Required field " ++ sQuote ++ f ++ sQuote ++ " is missing") .none)
    | Option.none => do
      let n ← validate_job_name (pyDictGetD data "name" .none)
      let u ← validate_url (pyDictGetD data "url" .none)
      let m ← validate_http_method (pyDictGetD data "method" .none)
      let h ← validate_headers (pyDictGetD data "headers" .none)
      let b ← validate_request_body (pyDictGetD data "body" .none)
      let c ← validate_cron_expression (pyDictGetD data "cron_expression" .none)
      return .dict [("name", n), ("url", u), ("method", m), ("headers", h),
        ("body", b), ("cron_expression", c)]
  | _ => .error (.validation "job_data" "Job data must be a dictionary" v)

/-- Embedding of `validate_job_id` (validation.py lines 371-396). -/
def validate_job_id (v : PyVal) : Except VErr PyVal :=
  if !pyTruthy v then .error (.validation "job_id" "Job ID cannot be empty" v)
  else
    match v with
    | .str s0 =>
      let jid := pyStrip s0
      if jid = "" then .error (.validation "job_id" "Job ID cannot be empty" (.str jid))
      else if jid.length < 3 then
        .error (.validation "job_id" "Job ID appears to be too short" (.str jid))
      else .ok (.str jid)
    | _ => .error (.crash (noAttrMsg v "strip"))

/-- The `try` block of `get_next_execution_times` (lines 357-365) after a
successful `croniter(expression)` construction: each loop iteration calls
`cron.get_next()` — croniter's **default** `ret_type` is `float`, so the
result is a unix-timestamp float — and then `next_time.isoformat()`, which
raises `AttributeError` on a float.  With `count = 0` the loop body never
runs and the empty `times` list is returned. -/
def nextTimesLoop (count : Nat) : Except String (List String) :=
  match count with
  | 0 => .ok []
  | _ + 1 => .error (noAttrMsg (.float 0) "isoformat")

/-- Embedding of `get_next_execution_times` (validation.py lines 346-368):
`croniter(expression)` construction (modelled by `croniterAccepts`, raising
on a rejected expression), then the append loop; `except Exception` turns
any raised error into the empty list. -/
def get_next_execution_times (expression : String) (count : Nat) : List String :=
  let tryResult : Except String (List String) :=
    if croniterAccepts expression then nextTimesLoop count
    else .error (croniterErrMsg expression)
  match tryResult with
  | .ok ts => ts
  | .error _ => []

/-! ## Tool handlers (`src/tools/job_management.py`, `src/tools/job_control.py`)

A handler is a function of the tool arguments and of the remote API's
behaviour, modelled as a map from a request (method, endpoint) to that
request's result.  Besides the returned envelope, each embedded handler
returns the list of API requests it issued, in order, so that
"issues no request" properties can be stated.  The scoped client
context (`async with CronlyticAPIClient(config)`) has no other observable
effect in this model. -/

/-- One HTTP request issued through the client by a tool handler, as passed
to `_make_request`. -/
structure APIRequest where
  method : String
  endpoint : String
deriving DecidableEq, Repr

/-- The `details` attribute of a taxonomy error (see `errors.py`). -/
def CronErr.details : CronErr → PyVal
  | .validationError f _ val => .dict [("field", .str f), ("value", val)]
  | .authenticationError _ => .dict []
  | .authorizationError _ p c x =>
    .dict [("plan", p), ("current_count", c), ("max_allowed", x)]
  | .notFoundError t i => .dict [("resource_type", .str t), ("resource_id", .str i)]
  | .apiError _ sc rd =>
    .dict [("status_code", match sc with
      | Option.some n => .int n
      | Option.none => .none), ("response_data", rd)]
  | .connectionError _ => .dict []
  | .rateLimitError _ ra =>
    .dict [("retry_after", match ra with
      | Option.some n => .int n
      | Option.none => .none)]
  | .timeoutError _ => .dict []

/-- Field access on an envelope dict (`.none` when absent or not a dict);
used only to state properties of handler results. -/
def envGet (v : PyVal) (k : String) : PyVal :=
  match v with
  | .dict d => pyDictGetD d k .none
  | _ => .none

/-- The string carried by a `.str` value (used only where the value is
known to be a string). -/
def pyStrOf : PyVal → String
  | .str s => s
  | v => pyToStr v

/-- The shared `except ValidationError` envelope of the tool handlers. -/
def validationEnvelope (f m : String) (val : PyVal) : PyVal :=
  .dict [("success", .bool false), ("error", .str "Validation Error"),
    ("message", .str (CronErr.pyStr (.validationError f m val))),
    ("field", .str f), ("value", val)]

/-- The shared `except CronlyticError` envelope of the tool handlers. -/
def cronErrEnvelope (e : CronErr) : PyVal :=
  .dict [("success", .bool false), ("error", .str e.className),
    ("message", .str e.message), ("details", e.details)]

/-- The shared `except Exception` envelope of the tool handlers. -/
def unexpectedEnvelope (m : String) : PyVal :=
  .dict [("success", .bool false), ("error", .str "Unexpected Error"),
    ("message", .str m)]

/-- Python `x == "lit"`: equal only when `x` is that very string. -/
def pyEqStr (v : PyVal) (s : String) : Bool :=
  match v with
  | .str t => t == s
  | _ => false

/-- The list comprehension at line 198 of `list_jobs_tool`
(`[job for job in jobs_data if job.get("status") != "paused"]`); an element
that is not a dict makes `job.get` raise `AttributeError`. -/
def filterNotPaused : List PyVal → Except String (List PyVal)
  | [] => .ok []
  | j :: rest =>
    match j with
    | .dict d =>
      (filterNotPaused rest).map (fun r =>
        if pyEqStr (pyDictGetD d "status" .none) "paused" then r else j :: r)
    | _ => .error (noAttrMsg j "get")

/-- `status_counts[status] = status_counts.get(status, 0) + 1` on an
association list (the first occurrence keeps its position, like a Python
dict). -/
def bumpCount (counts : List (String × Int)) (key : String) : List (String × Int) :=
  if counts.any (fun p => p.1 == key) then
    counts.map (fun p => if p.1 == key then (p.1, p.2 + 1) else p)
  else counts ++ [(key, 1)]

/-- The status-summary loop shared by `list_jobs_tool` (lines 209-212) and
`get_job_logs_tool` (lines 253-261): `status = item.get("status",
"unknown")` then a counter bump.  A non-dict item raises `AttributeError`.
Status keys are modelled as strings via `pyToStr` (an approximation for
non-string statuses; no checked property inspects the breakdown). -/
def statusCounts (acc : List (String × Int)) :
    List PyVal → Except String (List (String × Int))
  | [] => .ok acc
  | j :: rest =>
    match j with
    | .dict d =>
      statusCounts (bumpCount acc (pyStrOf (pyDictGetD d "status" (.str "unknown")))) rest
    | _ => .error (noAttrMsg j "get")

/-- A status-counts association list as the envelope's breakdown dict. -/
def countsDict (counts : List (String × Int)) : PyVal :=
  .dict (counts.map (fun p => (p.1, .int p.2)))

/-- Python list slicing `l[:n]` for an integer `n` (a negative `n` counts
from the end). -/
def pySliceTo (l : List PyVal) (n : Int) : List PyVal :=
  if 0 ≤ n then l.take n.toNat
  else l.take (l.length - (-n).toNat)

/-- Lines 201-205 of `list_jobs_tool`: `if limit and len(jobs_data) >
limit:` then `jobs_data = jobs_data[:limit]`.  A falsy limit skips
truncation; a truthy non-numeric limit makes the `>` comparison raise
`TypeError`; a float limit compares fine but then makes the slice raise
`TypeError`. -/
def applyLimit (jobs : List PyVal) (limit : PyVal) :
    Except String (List PyVal × Bool) :=
  if !pyTruthy limit then .ok (jobs, false)
  else
    match limit with
    | .int n =>
      if (jobs.length : Int) > n then .ok (pySliceTo jobs n, true) else .ok (jobs, false)
    | .bool _ =>
      if (jobs.length : Int) > 1 then .ok (pySliceTo jobs 1, true) else .ok (jobs, false)
    | .float q =>
      if (jobs.length : ℚ) > q then
        .error "slice indices must be integers or None or have an __index__ method"
      else .ok (jobs, false)
    | _ =>
      .error (sQuote ++ ">" ++ sQuote ++ " not supported between instances of " ++
        sQuote ++ "int" ++ sQuote ++ " and " ++ sQuote ++ pyTypeName limit ++ sQuote)

/-- Embedding of `list_jobs_tool` (tools/job_management.py lines 170-243):
fetch via `client.list_jobs` (which returns the parsed body when it is a
list and `[]` otherwise), client-side `include_paused` filter, client-side
`limit` truncation, then the summary.  Second component: the API requests
issued. -/
def list_jobs_tool (api : APIRequest → Except CronErr PyVal)
    (arguments : List (String × PyVal)) : PyVal × List APIRequest :=
  let include_paused := pyDictGetD arguments "include_paused" (.bool true)
  let limit := pyDictGetD arguments "limit" (.int 50)
  match api ⟨"GET", "/jobs"⟩ with
  | .error e => (cronErrEnvelope e, [⟨"GET", "/jobs"⟩])
  | .ok resp =>
    let jobs0 : List PyVal := match resp with | .list l => l | _ => []
    let step : Except String PyVal := do
      let jobs1 ← if pyTruthy include_paused then pure jobs0 else filterNotPaused jobs0
      let tl ← applyLimit jobs1 limit
      let counts ← statusCounts [] tl.1
      return .dict [("success", .bool true), ("jobs", .list tl.1),
        ("summary", .dict [("total_count", .int tl.1.length),
          ("status_breakdown", countsDict counts),
          ("limited", .bool tl.2),
          ("limit_applied", if tl.2 then limit else .none)]),
        ("message", .str ("Found " ++ toString tl.1.length ++ " job" ++
          (if tl.1.length != 1 then "s" else "")))]
    match step with
    | .ok env => (env, [⟨"GET", "/jobs"⟩])
    | .error m => (unexpectedEnvelope m, [⟨"GET", "/jobs"⟩])

/-- Embedding of `delete_job_tool` (tools/job_management.py lines 456-538).
Without a truthy `confirm` the handler returns the confirmation-required
envelope before any client call; when confirmed it best-effort fetches the
job name (falling back to the id) and then deletes. -/
def delete_job_tool (api : APIRequest → Except CronErr PyVal)
    (arguments : List (String × PyVal)) : PyVal × List APIRequest :=
  match validate_job_id (pyDictGetD arguments "job_id" (.str "")) with
  | .error (.validation f m val) => (validationEnvelope f m val, [])
  | .error (.crash m) => (unexpectedEnvelope m, [])
  | .ok jv =>
    let jid := pyStrOf jv
    let confirm := pyDictGetD arguments "confirm" (.bool false)
    if !pyTruthy confirm then
      (.dict [("success", .bool false), ("error", .str "Confirmation Required"),
        ("message", .str ("Job deletion requires confirmation. Set " ++ sQuote ++
          "confirm" ++ sQuote ++ " parameter to true to proceed.")),
        ("warning", .str "This action cannot be undone. The job and all its execution history will be permanently deleted."),
        ("job_id", .str jid)], [])
    else
      let getReq : APIRequest := ⟨"GET", "/jobs/" ++ jid⟩
      let delReq : APIRequest := ⟨"DELETE", "/jobs/" ++ jid⟩
      let jobName : PyVal :=
        match api getReq with
        | .ok info =>
          match info with
          | .dict d => pyDictGetD d "name" (.str jid)
          | _ => .str jid  -- AttributeError on .get, caught by the inner except
        | .error _ => .str jid
      match api delReq with
      | .error e => (cronErrEnvelope e, [getReq, delReq])
      | .ok delResult =>
        match delResult with
        | .dict dr =>
          (.dict [("success", .bool true),
            ("message", .str ("Job " ++ sQuote ++ pyToStr jobName ++ sQuote ++
              " has been permanently deleted")),
            ("job_id", .str jid), ("deleted", .bool true),
            ("deletion_timestamp", pyDictGetD dr "deleted_at" .none)], [getReq, delReq])
        | _ => (unexpectedEnvelope (noAttrMsg delResult "get"), [getReq, delReq])

/-- Lines 228-232 of `get_job_logs_tool`: the `limit` variable after
`if not isinstance(limit, int) or limit < 1 or limit > 100: limit = 20`.
Python bools are ints (`True` is `1`, in range; `False` is `0`, replaced),
and a passing limit keeps its original object. -/
def clampLogLimit (v : PyVal) : PyVal :=
  match v with
  | .int n => if n < 1 ∨ n > 100 then .int 20 else .int n
  | .bool b => if b then .bool b else .int 20
  | _ => .int 20

/-- Numeric value of a validated log limit (an int in range or `True`). -/
def limitNum (v : PyVal) : Int :=
  match v with
  | .int n => n
  | .bool b => if b then 1 else 0
  | _ => 0

/-- The supplied limit already is an integer in `[1, 100]` in Python's
sense (bools being ints). -/
def IsPyIntInRange (v : PyVal) : Prop :=
  (∃ n : Int, v = .int n ∧ 1 ≤ n ∧ n ≤ 100) ∨ v = .bool true

/-- Embedding of `get_job_logs_tool` (tools/job_control.py lines 207-304):
validate the job id, clamp the limit, fetch `/jobs/{id}/logs`, truncate the
`logs` array client-side, then build the summary.  A non-dict response body
or non-dict log entry raises `AttributeError` into the blanket handler. -/
def get_job_logs_tool (api : APIRequest → Except CronErr PyVal)
    (arguments : List (String × PyVal)) : PyVal × List APIRequest :=
  match validate_job_id (pyDictGetD arguments "job_id" (.str "")) with
  | .error (.validation f m val) => (validationEnvelope f m val, [])
  | .error (.crash m) => (unexpectedEnvelope m, [])
  | .ok jv =>
    let jid := pyStrOf jv
    let limit := clampLogLimit (pyDictGetD arguments "limit" (.int 20))
    let req : APIRequest := ⟨"GET", "/jobs/" ++ jid ++ "/logs"⟩
    match api req with
    | .error e => (cronErrEnvelope e, [req])
    | .ok resp =>
      match resp with
      | .dict rd =>
        let logs0 := pyDictGetD rd "logs" (.list [])
        let jobInfo := pyDictGetD rd "job" (.dict [])
        match logs0 with
        | .list logs =>
          let tl : List PyVal × Bool :=
            if (logs.length : Int) > limitNum limit then
              (pySliceTo logs (limitNum limit), true)
            else (logs, false)
          match statusCounts [] tl.1 with
          | .error m => (unexpectedEnvelope m, [req])
          | .ok counts =>
            (.dict [("success", .bool true), ("logs", .list tl.1), ("job", jobInfo),
              ("summary", .dict [("total_logs_returned", .int tl.1.length),
                ("status_breakdown", countsDict counts),
                ("recent_executions", .int tl.1.length),
                ("limited", .bool tl.2),
                ("limit_applied", if tl.2 then limit else .none)]),
              ("message", .str ("Retrieved " ++ toString tl.1.length ++ " log entr" ++
                (if tl.1.length != 1 then "ies" else "y") ++ " for job " ++ sQuote ++
                pyToStr (match jobInfo with
                  | .dict jd => pyDictGetD jd "name" (.str jid)
                  | _ => .str jid) ++ sQuote))], [req])
        | _ => (unexpectedEnvelope "len() of unsized object", [req])
      | _ => (unexpectedEnvelope (noAttrMsg resp "get"), [req])

/-! ## Client health check (`CronlyticAPIClient.health_check`) -/

/-- Outcome of the timed `ping` call inside
`CronlyticAPIClient.health_check`: the ping's parsed response together with
the measured (already rounded) elapsed milliseconds, or the raised
exception, carried as its class name and `str()`. -/
inductive PingOutcome where
  | ok (response : PyVal) (elapsedMs : ℚ)
  | exc (excType : String) (msg : String)

/-- Embedding of `CronlyticAPIClient.health_check` (cronlytic_client.py
lines 318-347) over the timed-ping outcome: the `try` block builds the
healthy shape from the response and timing; `except Exception` converts
every failure into the unhealthy shape — nothing is re-raised. -/
def client_health_check (baseUrl : String) : PingOutcome → PyVal
  | .ok resp ms =>
    .dict [("status", .str "healthy"), ("api_response", resp),
      ("response_time_ms", .float ms), ("base_url", .str baseUrl),
      ("connected", .bool true)]
  | .exc ty msg =>
    .dict [("status", .str "unhealthy"), ("error", .str msg),
      ("error_type", .str ty), ("base_url", .str baseUrl),
      ("connected", .bool false)]

/-- The edges of a list are free of `p`-elements (the shape of a stripped
string). -/
def NoEdge {α : Type} (p : α → Bool) (l : List α) : Prop :=
  (∀ c cs, l = c :: cs → p c = false) ∧ (∀ c cs, l.reverse = c :: cs → p c = false)

/-- Invariant of the entries of `validated_headers`: a stripped non-empty
key and an already-stripped string value. -/
def GoodHeader (p : String × PyVal) : Prop :=
  pyStrip p.1 = p.1 ∧ p.1 ≠ "" ∧ ∃ s, p.2 = .str s ∧ pyStrip s = s

/-! ## Lemmas about the retry loop -/

theorem makeRequestLoop_succ (cfg : ClientConfig) (transport : Nat → AttemptOutcome)
    (endpoint : String) (attempt fuel : Nat) :
    makeRequestLoop cfg transport endpoint attempt (fuel + 1) =
      match attemptStep endpoint cfg.timeout (transport attempt) with
      | .success v => ⟨.ok v, 1, []⟩
      | .raiseNow e => ⟨.error e, 1, []⟩
      | .retryable e =>
        if attempt == cfg.maxRetries then ⟨.error e, 1, []⟩
        else
          let rest := makeRequestLoop cfg transport endpoint (attempt + 1) fuel
          ⟨rest.result, rest.attempts + 1, cfg.retryDelay * 2 ^ attempt :: rest.sleeps⟩ := rfl

theorem makeRequestLoop_retryAll (cfg : ClientConfig) (transport : Nat → AttemptOutcome)
    (endpoint : String) (e : Nat → CronErr)
    (h : ∀ k, attemptStep endpoint cfg.timeout (transport k) = .retryable (e k)) :
    ∀ fuel attempt, 0 < fuel → attempt + fuel = cfg.maxRetries + 1 →
      makeRequestLoop cfg transport endpoint attempt fuel =
        ⟨.error (e cfg.maxRetries), fuel,
          (List.range' attempt (fuel - 1)).map (fun k => cfg.retryDelay * 2 ^ k)⟩ := by
  intro fuel
  induction fuel with
  | zero => intro attempt h0 _; exact absurd h0 (lt_irrefl 0)
  | succ f ih =>
    intro attempt _ hsum
    rw [makeRequestLoop_succ, h attempt]
    by_cases ha : attempt = cfg.maxRetries
    · have hf : f = 0 := by omega
      subst hf
      subst ha
      simp
    · have hf : 0 < f := by omega
      obtain ⟨g, rfl⟩ : ∃ g, f = g + 1 := ⟨f - 1, by omega⟩
      have hrec := ih (attempt + 1) hf (by omega)
      simp [ha, hrec, List.range'_succ]

theorem makeRequest_raiseNow_first (cfg : ClientConfig) (transport : Nat → AttemptOutcome)
    (endpoint : String) (err : CronErr)
    (h : attemptStep endpoint cfg.timeout (transport 0) = .raiseNow err) :
    make_request cfg transport endpoint = ⟨.error err, 1, []⟩ := by
  simp [make_request, makeRequestLoop, h]

theorem makeRequest_success_first (cfg : ClientConfig) (transport : Nat → AttemptOutcome)
    (endpoint : String) (v : PyVal)
    (h : attemptStep endpoint cfg.timeout (transport 0) = .success v) :
    make_request cfg transport endpoint = ⟨.ok v, 1, []⟩ := by
  simp [make_request, makeRequestLoop, h]

/-- C1: with `max_retries = N` and a transport that times out on every
attempt, `_make_request` performs exactly `N + 1` attempts, sleeps
`retry_delay * 2 ^ k` after attempt `k` for `k = 0 .. N-1`, and raises the
Timeout taxonomy error. -/
theorem makeRequest_allTimeouts (cfg : ClientConfig) (transport : Nat → AttemptOutcome)
    (endpoint : String) (h : ∀ k, transport k = .timeoutExc) :
    (make_request cfg transport endpoint).result =
        .error (.timeoutError ("Request timeout after " ++ toString cfg.timeout ++ "s")) ∧
    (make_request cfg transport endpoint).attempts = cfg.maxRetries + 1 ∧
    (make_request cfg transport endpoint).sleeps =
        (List.range cfg.maxRetries).map (fun k => cfg.retryDelay * 2 ^ k) := by
  have hstep : ∀ k, attemptStep endpoint cfg.timeout (transport k) =
      .retryable (.timeoutError ("Request timeout after " ++ toString cfg.timeout ++ "s")) := by
    intro k; rw [h k]; rfl
  have := makeRequestLoop_retryAll cfg transport endpoint _ hstep (cfg.maxRetries + 1) 0
    (Nat.succ_pos _) (by omega)
  rw [make_request, this]
  refine ⟨rfl, rfl, ?_⟩
  simp [List.range_eq_range']

/-- C1 witness: three attempts and sleeps `[1, 2]` for `max_retries = 2`,
`retry_delay = 1`. -/
theorem makeRequest_allTimeouts_witness :
    (make_request ⟨2, 1, 30⟩ (fun _ => .timeoutExc) "/ping").attempts = 3 ∧
    (make_request ⟨2, 1, 30⟩ (fun _ => .timeoutExc) "/ping").sleeps = [1, 2] := by
  have h := makeRequest_allTimeouts ⟨2, 1, 30⟩ (fun _ => .timeoutExc) "/ping" (fun _ => rfl)
  refine ⟨h.2.1, ?_⟩
  rw [h.2.2]
  norm_num [List.range_succ]

theorem attemptHTTP_422_retryable (endpoint : String) (ra : Option String) (rd : PyVal) :
    ∃ m, attemptHTTP endpoint 422 ra rd = .retryable (wrapUnexpected m) := by
  cases rd <;> exact ⟨_, rfl⟩

/-- C2 counterexample: with `max_retries = 1` and a transport answering
HTTP 422 on every attempt, `_make_request` performs two attempts (and one
backoff sleep), because the `APIError` raised for a 422 inside the `try`
block is caught by the generic `except Exception` clause and retried; the
claim says the 422 error is raised after exactly one attempt. -/
theorem makeRequest_422_counterexample :
    (make_request ⟨1, 1, 30⟩
      (fun _ => .http 422 Option.none (.json (.dict [("detail", .str "bad")])))
      "/jobs").attempts = 2 ∧
    (make_request ⟨1, 1, 30⟩
      (fun _ => .http 422 Option.none (.json (.dict [("detail", .str "bad")])))
      "/jobs").attempts ≠ 1 := by
  refine ⟨rfl, ?_⟩
  intro hcontra
  rw [show (make_request ⟨1, 1, 30⟩
      (fun _ => .http 422 Option.none (.json (.dict [("detail", .str "bad")])))
      "/jobs").attempts = 2 from rfl] at hcontra
  exact absurd hcontra (by omega)

/-- C2 amended: a request whose every attempt receives HTTP 422 is retried
like a generic error — `max_retries + 1` attempts with exponential backoff
sleeps, finally raising an APIGeneric (`APIError`) taxonomy error (wrapped
as an unexpected error); only `max_retries = 0` gives exactly one
attempt. -/
theorem makeRequest_422_retried (cfg : ClientConfig) (transport : Nat → AttemptOutcome)
    (endpoint : String) (ra : Option String) (body : RawBody)
    (h : ∀ k, transport k = .http 422 ra body) :
    (make_request cfg transport endpoint).attempts = cfg.maxRetries + 1 ∧
    (make_request cfg transport endpoint).sleeps =
      (List.range cfg.maxRetries).map (fun k => cfg.retryDelay * 2 ^ k) ∧
    ∃ er, (make_request cfg transport endpoint).result = .error er ∧
      er.kind = .apiGeneric := by
  obtain ⟨m, hm⟩ := attemptHTTP_422_retryable endpoint ra (parseResponseData body)
  have hstep : ∀ k, attemptStep endpoint cfg.timeout (transport k) =
      .retryable (wrapUnexpected m) := by
    intro k; rw [h k]; exact hm
  have hrun := makeRequestLoop_retryAll cfg transport endpoint
    (fun _ => wrapUnexpected m) hstep (cfg.maxRetries + 1) 0 (Nat.succ_pos _) (by omega)
  rw [make_request, hrun]
  exact ⟨rfl, by simp [List.range_eq_range'], _, rfl, rfl⟩

/-- C2 amended witness: `max_retries = 2` gives three attempts. -/
theorem makeRequest_422_retried_witness :
    (make_request ⟨2, 1, 30⟩
      (fun _ => .http 422 Option.none (.json (.dict [("detail", .str "bad")])))
      "/jobs").attempts = 3 :=
  (makeRequest_422_retried ⟨2, 1, 30⟩ _ "/jobs" Option.none
    (.json (.dict [("detail", .str "bad")])) (fun _ => rfl)).1

/-- C3 counterexample: a 401 response whose JSON body is an array (not an
object) is retried: the `detail` lookup on the parsed list raises
`AttributeError`, which the generic `except Exception` clause catches, so
with `max_retries = 1` the request takes two attempts; the claim says every
401 response ends the request after exactly one attempt. -/
theorem makeRequest_nonRetryable_counterexample :
    (make_request ⟨1, 1, 30⟩ (fun _ => .http 401 Option.none (.json (.list [])))
      "/jobs").attempts = 2 ∧
    (make_request ⟨1, 1, 30⟩ (fun _ => .http 401 Option.none (.json (.list [])))
      "/jobs").attempts ≠ 1 := by
  refine ⟨rfl, ?_⟩
  intro hcontra
  rw [show (make_request ⟨1, 1, 30⟩ (fun _ => .http 401 Option.none (.json (.list [])))
      "/jobs").attempts = 2 from rfl] at hcontra
  exact absurd hcontra (by omega)

theorem attemptHTTP_401_dict (endpoint : String) (ra : Option String)
    (d : List (String × PyVal)) :
    attemptHTTP endpoint 401 ra (.dict d) =
      .raiseNow (.authenticationError (pyDictGetD d "detail" (.str "Authentication failed"))) :=
  rfl

theorem attemptHTTP_403_dict (endpoint : String) (ra : Option String)
    (d : List (String × PyVal)) :
    ∃ m p c x, attemptHTTP endpoint 403 ra (.dict d) =
      .raiseNow (.authorizationError m p c x) := by
  have hred : attemptHTTP endpoint 403 ra (.dict d) =
      (match pyDictGetD d "detail" (.dict []) with
      | .dict dd =>
        if pyDictHas dd "job_count" then
          StepResult.raiseNow (.authorizationError (pyDictGetD dd "error" (.str "Authorization failed"))
            (pyDictGetD dd "plan" .none) (pyDictGetD dd "job_count" .none)
            (pyDictGetD dd "max_jobs" .none))
        else
          .raiseNow (.authorizationError (.str "Authorization failed") .none .none .none)
      | .str s => .raiseNow (.authorizationError (.str s) .none .none .none)
      | _ => .raiseNow (.authorizationError (.str "Authorization failed") .none .none .none)) := rfl
  rw [hred]
  rcases pyDictGetD d "detail" (.dict []) with _ | b | n | q | s | l | dd
  · exact ⟨_, _, _, _, rfl⟩
  · exact ⟨_, _, _, _, rfl⟩
  · exact ⟨_, _, _, _, rfl⟩
  · exact ⟨_, _, _, _, rfl⟩
  · exact ⟨_, _, _, _, rfl⟩
  · exact ⟨_, _, _, _, rfl⟩
  · by_cases hc : pyDictHas dd "job_count"
    · simp only [hc, if_true]
      exact ⟨_, _, _, _, rfl⟩
    · simp only [hc, if_false]
      exact ⟨_, _, _, _, rfl⟩

theorem attemptHTTP_404_raises (endpoint : String) (ra : Option String) (rd : PyVal) :
    attemptHTTP endpoint 404 ra rd =
      .raiseNow (.notFoundError "resource" ((pySplitOnChar '/' endpoint).getLastD "")) :=
  rfl

theorem attemptHTTP_429_raOK (endpoint : String) (ra : Option String) (rd : PyVal)
    (hra : ra = Option.none ∨ ra = Option.some "" ∨
      ∃ s n, ra = Option.some s ∧ pyIntOfStr s = Option.some n) :
    ∃ r, attemptHTTP endpoint 429 ra rd =
      .raiseNow (.rateLimitError "Rate limit exceeded" r) := by
  rcases hra with rfl | rfl | ⟨s, n, rfl, hs⟩
  · exact ⟨_, rfl⟩
  · exact ⟨_, rfl⟩
  · by_cases hs0 : s = ""
    · subst hs0; exact ⟨_, rfl⟩
    · refine ⟨Option.some n, ?_⟩
      have hred : attemptHTTP endpoint 429 (Option.some s) rd =
          (if s == "" then StepResult.raiseNow (.rateLimitError "Rate limit exceeded" Option.none)
          else
            match pyIntOfStr s with
            | Option.some n => .raiseNow (.rateLimitError "Rate limit exceeded" (Option.some n))
            | Option.none =>
              .retryable (wrapUnexpected
                ("invalid literal for int() with base 10: " ++ sQuote ++ s ++ sQuote))) := rfl
      rw [hred]
      simp [hs0, hs]

/-- C3 amended: a first-attempt response with status 401, 403, 404 or 429
ends the request after exactly one attempt, with no retry and no backoff
sleep, raising the corresponding taxonomy error (Authentication,
Authorization, NotFound, RateLimit) — provided the parsed response body is
a JSON object in the 401/403 cases (a non-object body makes the `detail`
lookup raise `AttributeError`, which is retried like a generic error), and
provided any `Retry-After` header on a 429 is empty or a well-formed
integer (an unparseable one makes `int()` raise `ValueError`, likewise
retried). -/
theorem makeRequest_nonRetryable_oneAttempt (cfg : ClientConfig)
    (transport : Nat → AttemptOutcome) (endpoint : String) (st : Nat)
    (ra : Option String) (body : RawBody)
    (h0 : transport 0 = .http st ra body)
    (hst : st = 401 ∨ st = 403 ∨ st = 404 ∨ st = 429)
    (hbody : st = 401 ∨ st = 403 → ∃ d, parseResponseData body = .dict d)
    (hra : st = 429 → ra = Option.none ∨ ra = Option.some "" ∨
      ∃ s n, ra = Option.some s ∧ pyIntOfStr s = Option.some n) :
    (make_request cfg transport endpoint).attempts = 1 ∧
    (make_request cfg transport endpoint).sleeps = [] ∧
    ∃ er, (make_request cfg transport endpoint).result = .error er ∧
      er.kind = nonRetryKind st := by
  have hstep : ∃ er, attemptStep endpoint cfg.timeout (transport 0) = .raiseNow er ∧
      er.kind = nonRetryKind st := by
    rw [h0]
    show ∃ er, attemptHTTP endpoint st ra (parseResponseData body) = .raiseNow er ∧
      er.kind = nonRetryKind st
    rcases hst with rfl | rfl | rfl | rfl
    · obtain ⟨d, hd⟩ := hbody (Or.inl rfl)
      rw [hd, attemptHTTP_401_dict]
      exact ⟨_, rfl, rfl⟩
    · obtain ⟨d, hd⟩ := hbody (Or.inr rfl)
      rw [hd]
      obtain ⟨m, p, c, x, hm⟩ := attemptHTTP_403_dict endpoint ra d
      rw [hm]
      exact ⟨_, rfl, rfl⟩
    · rw [attemptHTTP_404_raises]
      exact ⟨_, rfl, rfl⟩
    · obtain ⟨r, hr⟩ := attemptHTTP_429_raOK endpoint ra (parseResponseData body) (hra rfl)
      rw [hr]
      exact ⟨_, rfl, rfl⟩
  obtain ⟨er, her, hkind⟩ := hstep
  rw [makeRequest_raiseNow_first cfg transport endpoint er her]
  exact ⟨rfl, rfl, er, rfl, hkind⟩

/-- C3 amended witness: a 404 with `max_retries = 3` takes one attempt, no
sleep, and raises the NotFound taxonomy error. -/
theorem makeRequest_nonRetryable_oneAttempt_witness :
    (make_request ⟨3, 1, 30⟩ (fun _ => .http 404 Option.none (.json (.dict [])))
      "/jobs/abc").attempts = 1 ∧
    (make_request ⟨3, 1, 30⟩ (fun _ => .http 404 Option.none (.json (.dict [])))
      "/jobs/abc").sleeps = [] := by
  have h := makeRequest_nonRetryable_oneAttempt ⟨3, 1, 30⟩
    (fun _ => .http 404 Option.none (.json (.dict []))) "/jobs/abc" 404 Option.none
    (.json (.dict [])) rfl (Or.inr (Or.inr (Or.inl rfl)))
    (fun hc => by omega) (fun hc => by omega)
  exact ⟨h.1, h.2.1⟩

theorem attemptHTTP_success_imp (endpoint : String) (st : Nat) (ra : Option String)
    (rd v : PyVal) (h : attemptHTTP endpoint st ra rd = .success v) :
    st = 200 ∧ v = rd := by
  by_cases h200 : st = 200
  · subst h200
    have : attemptHTTP endpoint 200 ra rd = .success rd := rfl
    rw [this] at h
    cases h
    exact ⟨rfl, rfl⟩
  · exfalso
    have hb : (st == 200) = false := by simp [h200]
    unfold attemptHTTP at h
    rw [hb] at h
    simp only [Bool.false_eq_true, if_false] at h
    repeat' split at h
    all_goals exact StepResult.noConfusion h

theorem attemptStep_success_imp (endpoint : String) (t : Int) (o : AttemptOutcome)
    (v : PyVal) (h : attemptStep endpoint t o = .success v) :
    ∃ ra b, o = .http 200 ra b ∧ v = parseResponseData b := by
  cases o with
  | http st ra b =>
    have := attemptHTTP_success_imp endpoint st ra (parseResponseData b) v h
    exact ⟨ra, b, by rw [this.1], this.2⟩
  | timeoutExc => simp [attemptStep] at h
  | connectExc m => simp [attemptStep] at h
  | otherExc m => simp [attemptStep] at h

theorem makeRequestLoop_ok_attempt (cfg : ClientConfig) (transport : Nat → AttemptOutcome)
    (endpoint : String) :
    ∀ fuel attempt v, (makeRequestLoop cfg transport endpoint attempt fuel).result = .ok v →
      ∃ k, attempt ≤ k ∧ k < attempt + fuel ∧
        attemptStep endpoint cfg.timeout (transport k) = .success v := by
  intro fuel
  induction fuel with
  | zero => intro attempt v h; simp [makeRequestLoop] at h
  | succ f ih =>
    intro attempt v h
    rw [makeRequestLoop_succ] at h
    cases hstep : attemptStep endpoint cfg.timeout (transport attempt) with
    | success w =>
      rw [hstep] at h
      simp only at h
      cases h
      exact ⟨attempt, le_refl _, by omega, hstep⟩
    | raiseNow e => rw [hstep] at h; simp at h
    | retryable e =>
      rw [hstep] at h
      simp only at h
      by_cases ha : attempt = cfg.maxRetries
      · rw [if_pos (by simp [ha])] at h; simp at h
      · rw [if_neg (by simp [ha])] at h
        simp only at h
        obtain ⟨k, hk1, hk2, hk3⟩ := ih (attempt + 1) v h
        exact ⟨k, by omega, by omega, hk3⟩

/-- C9: only an HTTP 200 response returns a body to the caller: whenever
`_make_request` returns successfully, some attempt received status 200 and
the returned value is that attempt's parsed body; consequently a transport
whose every HTTP response carries a status other than 200 (201 and 204
included) makes `_make_request` raise a taxonomy error. -/
theorem makeRequest_only_200_returns (cfg : ClientConfig)
    (transport : Nat → AttemptOutcome) (endpoint : String) :
    (∀ v, (make_request cfg transport endpoint).result = .ok v →
      ∃ k ra b, k ≤ cfg.maxRetries ∧ transport k = .http 200 ra b ∧
        v = parseResponseData b) ∧
    ((∀ k st ra b, transport k = .http st ra b → st ≠ 200) →
      ∃ er, (make_request cfg transport endpoint).result = .error er) := by
  constructor
  · intro v hv
    obtain ⟨k, _, hk2, hk3⟩ := makeRequestLoop_ok_attempt cfg transport endpoint
      (cfg.maxRetries + 1) 0 v hv
    obtain ⟨ra, b, ho, hvb⟩ := attemptStep_success_imp endpoint cfg.timeout (transport k) v hk3
    exact ⟨k, ra, b, by omega, ho, hvb⟩
  · intro hnon
    cases hres : (make_request cfg transport endpoint).result with
    | error er => exact ⟨er, rfl⟩
    | ok v =>
      exfalso
      obtain ⟨k, _, hk2, hk3⟩ := makeRequestLoop_ok_attempt cfg transport endpoint
        (cfg.maxRetries + 1) 0 v hres
      obtain ⟨ra, b, ho, _⟩ := attemptStep_success_imp endpoint cfg.timeout (transport k) v hk3
      exact hnon k 200 ra b ho rfl

/-- C9 witness: a transport answering 201 on every attempt yields a raised
taxonomy error, and a transport answering 200 returns the parsed body. -/
theorem makeRequest_only_200_returns_witness :
    (∃ er, (make_request ⟨1, 1, 30⟩
      (fun _ => .http 201 Option.none (.json (.dict [("ok", .bool true)])))
      "/jobs").result = .error er) ∧
    (∃ k ra b, k ≤ 1 ∧
      (fun (_ : Nat) => AttemptOutcome.http 200 Option.none (.json (.dict []))) k =
        .http 200 ra b ∧
      PyVal.dict [] = parseResponseData b) := by
  constructor
  · exact (makeRequest_only_200_returns ⟨1, 1, 30⟩
      (fun _ => .http 201 Option.none (.json (.dict [("ok", .bool true)]))) "/jobs").2
      (fun k st ra b hk => by
        injection hk with h1 _ _
        omega)
  · exact (makeRequest_only_200_returns ⟨1, 1, 30⟩
      (fun _ => .http 200 Option.none (.json (.dict []))) "/ping").1 (.dict []) rfl

/-! ## Lemmas about stripping and the validators -/

theorem dropWhile_head_false {α : Type} (p : α → Bool) :
    ∀ l : List α, ∀ c cs, l.dropWhile p = c :: cs → p c = false := by
  intro l
  induction l with
  | nil => intro c cs h; simp [List.dropWhile] at h
  | cons a t ih =>
    intro c cs h
    by_cases hp : p a
    · rw [List.dropWhile_cons_of_pos hp] at h
      exact ih c cs h
    · rw [List.dropWhile_cons_of_neg hp] at h
      cases h
      simpa using hp

theorem dropWhile_eq_self_of_head {α : Type} (p : α → Bool) (l : List α)
    (h : ∀ c cs, l = c :: cs → p c = false) : l.dropWhile p = l := by
  cases l with
  | nil => rfl
  | cons a t =>
    have := h a t rfl
    rw [List.dropWhile_cons_of_neg (by simp [this])]

theorem stripList_noEdge (p : Char → Bool) (l : List Char) :
    NoEdge p (((l.dropWhile p).reverse.dropWhile p).reverse) := by
  constructor
  · intro c cs h
    have hdecomp :
        (l.dropWhile p).reverse.takeWhile p ++ (l.dropWhile p).reverse.dropWhile p =
          (l.dropWhile p).reverse := List.takeWhile_append_dropWhile p _
    have ht2 : l.dropWhile p =
        ((l.dropWhile p).reverse.dropWhile p).reverse ++
          ((l.dropWhile p).reverse.takeWhile p).reverse := by
      have hc := congrArg List.reverse hdecomp
      rw [List.reverse_append, List.reverse_reverse] at hc
      exact hc.symm
    rw [h, List.cons_append] at ht2
    exact dropWhile_head_false p l c _ ht2
  · intro c cs h
    rw [List.reverse_reverse] at h
    exact dropWhile_head_false p _ c cs h

theorem stripList_eq_self_of_noEdge (p : Char → Bool) (l : List Char)
    (h : NoEdge p l) :
    ((l.dropWhile p).reverse.dropWhile p).reverse = l := by
  rw [dropWhile_eq_self_of_head p l h.1, dropWhile_eq_self_of_head p l.reverse h.2,
    List.reverse_reverse]

theorem stripList_idem (l : List Char) : stripList (stripList l) = stripList l := by
  unfold stripList
  exact stripList_eq_self_of_noEdge pyIsSpace _ (stripList_noEdge pyIsSpace l)

theorem pyStrip_idem (s : String) : pyStrip (pyStrip s) = pyStrip s := by
  unfold pyStrip
  have : (String.mk (stripList s.toList)).toList = stripList s.toList := rfl
  rw [this, stripList_idem]

theorem validate_job_name_idem (v w : PyVal) (h : validate_job_name v = .ok w) :
    validate_job_name w = .ok w := by
  cases v with
  | str s0 =>
    unfold validate_job_name at h
    by_cases htr : pyTruthy (.str s0)
    · rw [if_neg (by simp [htr])] at h
      simp only at h
      split_ifs at h with h1 h2 h3 <;> simp only [Except.ok.injEq, reduceCtorEq] at h
      subst h
      have hs : pyStrip (pyStrip s0) = pyStrip s0 := pyStrip_idem s0
      have hne : pyStrip s0 ≠ "" := fun he => h1 (by rw [he]; rfl)
      have h3' : JOB_NAME_PATTERN (pyStrip s0) = true := by simpa using h3
      simp [validate_job_name, pyTruthy, hs, hne, h1, h2, h3']
    · rw [if_pos (by simp [htr])] at h
      exact absurd h (by simp)
  | none => unfold validate_job_name at h; split at h <;> simp_all
  | bool b => unfold validate_job_name at h; split at h <;> simp_all
  | int n => unfold validate_job_name at h; split at h <;> simp_all
  | float q => unfold validate_job_name at h; split at h <;> simp_all
  | list l => unfold validate_job_name at h; split at h <;> simp_all
  | dict d => unfold validate_job_name at h; split at h <;> simp_all

theorem validate_url_idem (v w : PyVal) (h : validate_url v = .ok w) :
    validate_url w = .ok w := by
  cases v with
  | str s0 =>
    unfold validate_url at h
    by_cases htr : pyTruthy (.str s0)
    · rw [if_neg (by simp [htr])] at h
      simp only at h
      split_ifs at h with h1 h2 h3 h4 <;> simp only [Except.ok.injEq, reduceCtorEq] at h
      subst h
      have hs : pyStrip (pyStrip s0) = pyStrip s0 := pyStrip_idem s0
      have hne : pyStrip s0 ≠ "" := h1
      simp [validate_url, pyTruthy, hs, h1, h2, h3, h4]
    · rw [if_pos (by simp [htr])] at h
      exact absurd h (by simp)
  | none => unfold validate_url at h; split at h <;> simp_all
  | bool b => unfold validate_url at h; split at h <;> simp_all
  | int n => unfold validate_url at h; split at h <;> simp_all
  | float q => unfold validate_url at h; split at h <;> simp_all
  | list l => unfold validate_url at h; split at h <;> simp_all
  | dict d => unfold validate_url at h; split at h <;> simp_all

theorem validate_http_method_idem (v w : PyVal) (h : validate_http_method v = .ok w) :
    validate_http_method w = .ok w := by
  cases v with
  | str s0 =>
    unfold validate_http_method at h
    by_cases htr : pyTruthy (.str s0)
    · rw [if_neg (by simp [htr])] at h
      simp only at h
      split_ifs at h with h1 <;> simp only [Except.ok.injEq, reduceCtorEq] at h
      subst h
      have hmem : pyUpper (pyStrip s0) = "GET" ∨ pyUpper (pyStrip s0) = "POST" ∨
          pyUpper (pyStrip s0) = "PUT" ∨ pyUpper (pyStrip s0) = "DELETE" ∨
          pyUpper (pyStrip s0) = "PATCH" ∨ pyUpper (pyStrip s0) = "HEAD" ∨
          pyUpper (pyStrip s0) = "OPTIONS" := by
        simpa [allowedMethods] using h1
      rcases hmem with hm | hm | hm | hm | hm | hm | hm <;> rw [hm] <;> rfl
    · rw [if_pos (by simp [htr])] at h
      exact absurd h (by simp)
  | none => unfold validate_http_method at h; split at h <;> simp_all
  | bool b => unfold validate_http_method at h; split at h <;> simp_all
  | int n => unfold validate_http_method at h; split at h <;> simp_all
  | float q => unfold validate_http_method at h; split at h <;> simp_all
  | list l => unfold validate_http_method at h; split at h <;> simp_all
  | dict d => unfold validate_http_method at h; split at h <;> simp_all

theorem validate_request_body_idem (v w : PyVal) (h : validate_request_body v = .ok w) :
    validate_request_body w = .ok w := by
  cases v with
  | none => simp [validate_request_body] at h; subst h; rfl
  | str s => simp [validate_request_body] at h; subst h; rfl
  | bool b => simp [validate_request_body] at h
  | int n => simp [validate_request_body] at h
  | float q => simp [validate_request_body] at h
  | list l => simp [validate_request_body] at h
  | dict d => simp [validate_request_body] at h

theorem validate_cron_expression_idem (v w : PyVal)
    (h : validate_cron_expression v = .ok w) :
    validate_cron_expression w = .ok w := by
  cases v with
  | str s0 =>
    unfold validate_cron_expression at h
    by_cases htr : pyTruthy (.str s0)
    · rw [if_neg (by simp [htr])] at h
      simp only at h
      split_ifs at h with h1 h2 h3 <;> try simp only [reduceCtorEq] at h
      · cases hc : cronFieldsCheck (pySplitWs (pyStrip s0)) 0 with
        | some m => rw [hc] at h; simp at h
        | none =>
          rw [hc] at h
          simp only [Except.ok.injEq] at h
          subst h
          have hs : pyStrip (pyStrip s0) = pyStrip s0 := pyStrip_idem s0
          simp [validate_cron_expression, pyTruthy, hs, h1, h2, hc, h3]
      · cases hc : cronFieldsCheck (pySplitWs (pyStrip s0)) 0 with
        | some m => rw [hc] at h; simp at h
        | none => rw [hc] at h; simp at h
    · rw [if_pos (by simp [htr])] at h
      exact absurd h (by simp)
  | none => unfold validate_cron_expression at h; split at h <;> simp_all
  | bool b => unfold validate_cron_expression at h; split at h <;> simp_all
  | int n => unfold validate_cron_expression at h; split at h <;> simp_all
  | float q => unfold validate_cron_expression at h; split at h <;> simp_all
  | list l => unfold validate_cron_expression at h; split at h <;> simp_all
  | dict d => unfold validate_cron_expression at h; split at h <;> simp_all

theorem dictSet_entry_mem (d : List (String × PyVal)) (k : String) (v : PyVal) :
    ∀ p ∈ dictSet d k v, p ∈ d ∨ p = (k, v) := by
  intro p hp
  unfold dictSet at hp
  by_cases hin : d.any (fun q => q.1 == k)
  · rw [if_pos hin] at hp
    obtain ⟨q, hq, hqe⟩ := List.mem_map.mp hp
    by_cases hqk : q.1 == k
    · right; rw [if_pos hqk] at hqe; exact hqe.symm
    · left; rw [if_neg hqk] at hqe; exact hqe ▸ hq
  · rw [if_neg hin] at hp
    rcases List.mem_append.mp hp with hl | hr
    · exact Or.inl hl
    · exact Or.inr (List.mem_singleton.mp hr)

theorem dictSet_keys_nodup (d : List (String × PyVal)) (k : String) (v : PyVal)
    (h : (d.map Prod.fst).Nodup) : ((dictSet d k v).map Prod.fst).Nodup := by
  unfold dictSet
  by_cases hin : d.any (fun q => q.1 == k)
  · rw [if_pos hin]
    have hmm : (d.map (fun p => if p.1 == k then (k, v) else p)).map Prod.fst =
        d.map Prod.fst := by
      rw [List.map_map]
      apply List.map_congr_left
      intro p _
      by_cases hpk : p.1 == k
      · simp only [Function.comp, hpk, if_pos]
        exact (eq_of_beq hpk).symm
      · simp only [Function.comp, hpk, if_neg]
        rfl
    rw [hmm]
    exact h
  · rw [if_neg hin, List.map_append]
    have hknot : k ∉ d.map Prod.fst := by
      intro hk
      obtain ⟨q, hq, hqe⟩ := List.mem_map.mp hk
      exact hin (List.any_eq_true.mpr ⟨q, hq, by simp [hqe]⟩)
    simp [List.nodup_append, h, hknot]

theorem dictSet_append (d : List (String × PyVal)) (k : String) (v : PyVal)
    (h : ∀ q ∈ d, q.1 ≠ k) : dictSet d k v = d ++ [(k, v)] := by
  unfold dictSet
  rw [if_neg]
  intro hany
  obtain ⟨q, hq, hqk⟩ := List.any_eq_true.mp hany
  exact h q hq (eq_of_beq hqk)

theorem validateHeaderItems_good :
    ∀ (l acc out : List (String × PyVal)),
      (∀ p ∈ acc, GoodHeader p) →
      validateHeaderItems acc l = .ok out →
      ∀ p ∈ out, GoodHeader p := by
  intro l
  induction l with
  | nil =>
    intro acc out hacc h p hp
    simp only [validateHeaderItems, Except.ok.injEq] at h
    subst h
    exact hacc p hp
  | cons a rest ih =>
    intro acc out hacc h p hp
    obtain ⟨k, v⟩ := a
    cases v with
    | str s =>
      simp only [validateHeaderItems] at h
      split_ifs at h with hk
      refine ih _ out ?_ h p hp
      intro q hq
      rcases dictSet_entry_mem acc (pyStrip k) (.str (pyStrip s)) q hq with hq' | hq'
      · exact hacc q hq'
      · subst hq'
        exact ⟨pyStrip_idem k, hk, pyStrip s, rfl, pyStrip_idem s⟩
    | none => simp [validateHeaderItems] at h
    | bool b => simp [validateHeaderItems] at h
    | int n => simp [validateHeaderItems] at h
    | float q => simp [validateHeaderItems] at h
    | list xs => simp [validateHeaderItems] at h
    | dict xs => simp [validateHeaderItems] at h

theorem validateHeaderItems_nodup :
    ∀ (l acc out : List (String × PyVal)),
      (acc.map Prod.fst).Nodup →
      validateHeaderItems acc l = .ok out →
      (out.map Prod.fst).Nodup := by
  intro l
  induction l with
  | nil =>
    intro acc out hacc h
    simp only [validateHeaderItems, Except.ok.injEq] at h
    subst h
    exact hacc
  | cons a rest ih =>
    intro acc out hacc h
    obtain ⟨k, v⟩ := a
    cases v with
    | str s =>
      simp only [validateHeaderItems] at h
      split_ifs at h with hk
      exact ih _ out (dictSet_keys_nodup acc (pyStrip k) (.str (pyStrip s)) hacc) h
    | none => simp [validateHeaderItems] at h
    | bool b => simp [validateHeaderItems] at h
    | int n => simp [validateHeaderItems] at h
    | float q => simp [validateHeaderItems] at h
    | list xs => simp [validateHeaderItems] at h
    | dict xs => simp [validateHeaderItems] at h

theorem validateHeaderItems_refold :
    ∀ (l acc : List (String × PyVal)),
      (∀ p ∈ l, GoodHeader p) → (l.map Prod.fst).Nodup →
      (∀ p ∈ l, ∀ q ∈ acc, q.1 ≠ p.1) →
      validateHeaderItems acc l = .ok (acc ++ l) := by
  intro l
  induction l with
  | nil => intro acc _ _ _; simp [validateHeaderItems]
  | cons a rest ih =>
    intro acc hg hnd hdisj
    obtain ⟨k, v⟩ := a
    obtain ⟨hk1, hk2, s, hv, hs⟩ := hg (k, v) (List.mem_cons_self _ _)
    simp only at hv
    subst hv
    simp only [validateHeaderItems]
    simp only at hk1 hk2
    rw [hk1, hs, if_neg hk2]
    rw [dictSet_append acc k (.str s) (fun q hq => hdisj (k, .str s) (List.mem_cons_self _ _) q hq)]
    have hrest_good : ∀ p ∈ rest, GoodHeader p := fun p hp => hg p (List.mem_cons_of_mem _ hp)
    have hnd2 : (List.map Prod.fst ((k, PyVal.str s) :: rest)).Nodup := hnd
    simp only [List.map_cons, List.nodup_cons] at hnd2
    have hdisj2 : ∀ p ∈ rest, ∀ q ∈ acc ++ [(k, PyVal.str s)], q.1 ≠ p.1 := by
      intro p hp q hq
      rcases List.mem_append.mp hq with hq' | hq'
      · exact hdisj p (List.mem_cons_of_mem _ hp) q hq'
      · have hq2 : q = (k, PyVal.str s) := List.mem_singleton.mp hq'
        subst hq2
        intro hcontra
        have hkp : k = p.1 := hcontra
        exact hnd2.1 (by rw [hkp]; exact List.mem_map_of_mem Prod.fst hp)
    rw [ih (acc ++ [(k, PyVal.str s)]) hrest_good hnd2.2 hdisj2]
    simp

theorem validate_headers_idem (v w : PyVal) (h : validate_headers v = .ok w) :
    validate_headers w = .ok w := by
  cases v with
  | none =>
    simp only [validate_headers, Except.ok.injEq] at h
    subst h
    rfl
  | dict items =>
    have h2 : Except.map PyVal.dict (validateHeaderItems [] items) = .ok w := h
    cases hvi : validateHeaderItems [] items with
    | error e => rw [hvi] at h2; exact absurd h2 (by simp [Except.map])
    | ok out =>
      rw [hvi] at h2
      simp only [Except.map, Except.ok.injEq] at h2
      subst h2
      have hg := validateHeaderItems_good items [] out (by simp) hvi
      have hnd := validateHeaderItems_nodup items [] out (by simp) hvi
      show Except.map PyVal.dict (validateHeaderItems [] out) = .ok (.dict out)
      rw [validateHeaderItems_refold out [] hg hnd (by simp)]
      simp [Except.map]
  | bool b => simp [validate_headers] at h
  | int n => simp [validate_headers] at h
  | float q => simp [validate_headers] at h
  | str s => simp [validate_headers] at h
  | list l => simp [validate_headers] at h

/-- C4: `validate_complete_job_data` is idempotent: whenever it succeeds
with output `d2`, re-validating `d2` succeeds and returns `d2` unchanged. -/
theorem validate_complete_job_data_idem (d d2 : PyVal)
    (h : validate_complete_job_data d = .ok d2) :
    validate_complete_job_data d2 = .ok d2 := by
  cases d with
  | dict data =>
    simp only [validate_complete_job_data] at h
    cases hreq : requiredFields.find? (fun f => !pyDictHas data f) with
    | some f => rw [hreq] at h; exact absurd h (by simp)
    | none =>
      rw [hreq] at h
      simp only [bind, Except.bind] at h
      cases hn : validate_job_name (pyDictGetD data "name" .none) with
      | error e => rw [hn] at h; exact absurd h (by simp)
      | ok n =>
      rw [hn] at h
      simp only at h
      cases hu : validate_url (pyDictGetD data "url" .none) with
      | error e => rw [hu] at h; exact absurd h (by simp)
      | ok u =>
      rw [hu] at h
      simp only at h
      cases hm : validate_http_method (pyDictGetD data "method" .none) with
      | error e => rw [hm] at h; exact absurd h (by simp)
      | ok m =>
      rw [hm] at h
      simp only at h
      cases hh : validate_headers (pyDictGetD data "headers" .none) with
      | error e => rw [hh] at h; exact absurd h (by simp)
      | ok hd =>
      rw [hh] at h
      simp only at h
      cases hb : validate_request_body (pyDictGetD data "body" .none) with
      | error e => rw [hb] at h; exact absurd h (by simp)
      | ok b =>
      rw [hb] at h
      simp only at h
      cases hc : validate_cron_expression (pyDictGetD data "cron_expression" .none) with
      | error e => rw [hc] at h; exact absurd h (by simp)
      | ok c =>
      rw [hc] at h
      simp only [pure, Except.pure, Except.ok.injEq] at h
      subst h
      have hn2 := validate_job_name_idem _ n hn
      have hu2 := validate_url_idem _ u hu
      have hm2 := validate_http_method_idem _ m hm
      have hh2 := validate_headers_idem _ hd hh
      have hb2 := validate_request_body_idem _ b hb
      have hc2 := validate_cron_expression_idem _ c hc
      simp only [validate_complete_job_data]
      rw [show requiredFields.find?
        (fun f => !pyDictHas [("name", n), ("url", u), ("method", m), ("headers", hd),
          ("body", b), ("cron_expression", c)] f) = Option.none from rfl]
      simp only [bind, Except.bind]
      rw [show pyDictGetD [("name", n), ("url", u), ("method", m), ("headers", hd),
        ("body", b), ("cron_expression", c)] "name" .none = n from rfl, hn2]
      simp only
      rw [show pyDictGetD [("name", n), ("url", u), ("method", m), ("headers", hd),
        ("body", b), ("cron_expression", c)] "url" .none = u from rfl, hu2]
      simp only
      rw [show pyDictGetD [("name", n), ("url", u), ("method", m), ("headers", hd),
        ("body", b), ("cron_expression", c)] "method" .none = m from rfl, hm2]
      simp only
      rw [show pyDictGetD [("name", n), ("url", u), ("method", m), ("headers", hd),
        ("body", b), ("cron_expression", c)] "headers" .none = hd from rfl, hh2]
      simp only
      rw [show pyDictGetD [("name", n), ("url", u), ("method", m), ("headers", hd),
        ("body", b), ("cron_expression", c)] "body" .none = b from rfl, hb2]
      simp only
      rw [show pyDictGetD [("name", n), ("url", u), ("method", m), ("headers", hd),
        ("body", b), ("cron_expression", c)] "cron_expression" .none = c from rfl, hc2]
      rfl
  | none => simp [validate_complete_job_data] at h
  | bool b => simp [validate_complete_job_data] at h
  | int n => simp [validate_complete_job_data] at h
  | float q => simp [validate_complete_job_data] at h
  | str s => simp [validate_complete_job_data] at h
  | list l => simp [validate_complete_job_data] at h

/-- C4 witness: a concrete valid job dictionary validates to itself and
re-validating that output is a no-op. -/
theorem validate_complete_job_data_idem_witness :
    validate_complete_job_data (.dict [("name", .str "daily-sync"),
      ("url", .str "https://example.com/webhook"), ("method", .str "POST"),
      ("headers", .dict []), ("body", .str ""),
      ("cron_expression", .str "0 2 * * *")]) =
      .ok (.dict [("name", .str "daily-sync"),
        ("url", .str "https://example.com/webhook"), ("method", .str "POST"),
        ("headers", .dict []), ("body", .str ""),
        ("cron_expression", .str "0 2 * * *")]) ∧
    validate_complete_job_data (.dict [("name", .str "daily-sync"),
      ("url", .str "https://example.com/webhook"), ("method", .str "POST"),
      ("headers", .dict []), ("body", .str ""),
      ("cron_expression", .str "0 2 * * *")]) =
      .ok (.dict [("name", .str "daily-sync"),
        ("url", .str "https://example.com/webhook"), ("method", .str "POST"),
        ("headers", .dict []), ("body", .str ""),
        ("cron_expression", .str "0 2 * * *")]) :=
  ⟨rfl, validate_complete_job_data_idem
    (.dict [("name", .str "daily-sync"), ("url", .str "https://example.com/webhook"),
      ("method", .str "POST"), ("headers", .dict []), ("body", .str ""),
      ("cron_expression", .str "0 2 * * *")])
    (.dict [("name", .str "daily-sync"), ("url", .str "https://example.com/webhook"),
      ("method", .str "POST"), ("headers", .dict []), ("body", .str ""),
      ("cron_expression", .str "0 2 * * *")])
    rfl⟩

/-- C5: `get_next_execution_times` returns the empty list for every
expression and every count — croniter's default `ret_type` makes
`get_next()` return a float, whose `.isoformat()` raises `AttributeError`,
which the blanket `except Exception` converts to `[]`; the spec and the
function's own docstring promise `count` ISO-formatted timestamps instead. -/
theorem get_next_execution_times_always_empty (expression : String) (count : Nat) :
    get_next_execution_times expression count = [] := by
  unfold get_next_execution_times
  by_cases hc : croniterAccepts expression
  · rw [if_pos hc]
    cases count with
    | zero => rfl
    | succ n => rfl
  · rw [if_neg hc]

/-! ## Tool handler and health check properties -/

/-- C6: `delete_job_tool` invoked with a job id that passes validation and
with `confirm` absent or falsy returns the Confirmation Required envelope
(success false, error, message, warning, job_id) and issues no API request
at all — in particular no DELETE — leaving the remote state untouched. -/
theorem delete_job_tool_requires_confirm (api : APIRequest → Except CronErr PyVal)
    (arguments : List (String × PyVal)) (jid : String)
    (hjid : validate_job_id (pyDictGetD arguments "job_id" (.str "")) = .ok (.str jid))
    (hconf : pyTruthy (pyDictGetD arguments "confirm" (.bool false)) = false) :
    delete_job_tool api arguments =
      (.dict [("success", .bool false), ("error", .str "Confirmation Required"),
        ("message", .str ("Job deletion requires confirmation. Set " ++ sQuote ++
          "confirm" ++ sQuote ++ " parameter to true to proceed.")),
        ("warning", .str "This action cannot be undone. The job and all its execution history will be permanently deleted."),
        ("job_id", .str jid)], []) := by
  unfold delete_job_tool
  rw [hjid]
  simp [hconf, pyStrOf]

/-- C6 witness: a concrete call without `confirm` returns the
Confirmation Required envelope and an empty request trace. -/
theorem delete_job_tool_requires_confirm_witness :
    (delete_job_tool (fun _ => .ok (.dict [])) [("job_id", .str "abc")]).2 = [] ∧
    envGet (delete_job_tool (fun _ => .ok (.dict [])) [("job_id", .str "abc")]).1
      "error" = .str "Confirmation Required" := by
  have h := delete_job_tool_requires_confirm (fun _ => .ok (.dict []))
    [("job_id", .str "abc")] "abc" rfl rfl
  rw [h]
  exact ⟨rfl, rfl⟩

/-- C8: the client health check lets no exception escape: it is a total
function of the timed-ping outcome, returning the healthy shape
(status/api_response/response_time_ms/base_url/connected) on success and
the unhealthy shape (status/error/error_type/base_url/connected false) on
any raised exception. -/
theorem client_health_check_shapes (baseUrl : String) (o : PingOutcome) :
    (∀ r ms, o = .ok r ms → client_health_check baseUrl o =
      .dict [("status", .str "healthy"), ("api_response", r),
        ("response_time_ms", .float ms), ("base_url", .str baseUrl),
        ("connected", .bool true)]) ∧
    (∀ ty m, o = .exc ty m → client_health_check baseUrl o =
      .dict [("status", .str "unhealthy"), ("error", .str m),
        ("error_type", .str ty), ("base_url", .str baseUrl),
        ("connected", .bool false)]) := by
  constructor
  · rintro r ms rfl; rfl
  · rintro ty m rfl; rfl

/-- C8 witness: both shapes at concrete outcomes. -/
theorem client_health_check_shapes_witness :
    client_health_check "https://api.cronlytic.com/prog" (.ok (.dict []) 50) =
      .dict [("status", .str "healthy"), ("api_response", .dict []),
        ("response_time_ms", .float 50),
        ("base_url", .str "https://api.cronlytic.com/prog"),
        ("connected", .bool true)] ∧
    client_health_check "https://api.cronlytic.com/prog"
        (.exc "TimeoutError" "Request timeout after 30s") =
      .dict [("status", .str "unhealthy"),
        ("error", .str "Request timeout after 30s"),
        ("error_type", .str "TimeoutError"),
        ("base_url", .str "https://api.cronlytic.com/prog"),
        ("connected", .bool false)] :=
  ⟨(client_health_check_shapes "https://api.cronlytic.com/prog"
      (.ok (.dict []) 50)).1 (.dict []) 50 rfl,
    (client_health_check_shapes "https://api.cronlytic.com/prog"
      (.exc "TimeoutError" "Request timeout after 30s")).2
      "TimeoutError" "Request timeout after 30s" rfl⟩

/-- C10 counterexample: with `limit = -5` (truthy, passes no schema check
in the handler) and a backend returning an empty job list, the invocation
succeeds with `summary.limited = true` although nothing was truncated
(`jobs` is unchanged and empty) and `total_count = 0` is not `≤ limit`. -/
theorem list_jobs_limit_counterexample :
    envGet (list_jobs_tool (fun _ => .ok (.list [])) [("limit", .int (-5))]).1
      "success" = .bool true ∧
    envGet (list_jobs_tool (fun _ => .ok (.list [])) [("limit", .int (-5))]).1
      "jobs" = .list [] ∧
    envGet (envGet (list_jobs_tool (fun _ => .ok (.list []))
      [("limit", .int (-5))]).1 "summary") "limited" = .bool true ∧
    envGet (envGet (list_jobs_tool (fun _ => .ok (.list []))
      [("limit", .int (-5))]).1 "summary") "total_count" = .int 0 ∧
    ¬((0 : Int) ≤ -5) :=
  ⟨rfl, rfl, rfl, rfl, by omega⟩

theorem list_jobs_tool_run (api : APIRequest → Except CronErr PyVal)
    (arguments : List (String × PyVal)) (jobs jobs1 jobs2 : List PyVal)
    (limited : Bool) (counts : List (String × Int)) (n : Int)
    (hresp : api ⟨"GET", "/jobs"⟩ = .ok (.list jobs))
    (hlimit : pyDictGetD arguments "limit" (.int 50) = .int n)
    (hfil : (if pyTruthy (pyDictGetD arguments "include_paused" (.bool true))
      then Except.ok jobs else filterNotPaused jobs) = .ok jobs1)
    (happ : applyLimit jobs1 (.int n) = .ok (jobs2, limited))
    (hcnt : statusCounts [] jobs2 = .ok counts) :
    (list_jobs_tool api arguments).1 =
      .dict [("success", .bool true), ("jobs", .list jobs2),
        ("summary", .dict [("total_count", .int jobs2.length),
          ("status_breakdown", countsDict counts),
          ("limited", .bool limited),
          ("limit_applied", if limited then PyVal.int n else .none)]),
        ("message", .str ("Found " ++ toString jobs2.length ++ " job" ++
          (if jobs2.length != 1 then "s" else "")))] := by
  unfold list_jobs_tool
  rw [hresp, hlimit]
  simp only [bind, Except.bind, pure, Except.pure]
  by_cases hip : pyTruthy (pyDictGetD arguments "include_paused" (.bool true)) = true
  · rw [if_pos hip] at hfil
    rw [if_pos hip]
    obtain rfl : jobs = jobs1 := by injection hfil
    rw [happ]
    simp only
    rw [hcnt]
  · rw [if_neg hip] at hfil
    rw [if_neg hip, hfil]
    simp only
    rw [happ]
    simp only
    rw [hcnt]

/-- C10 amended: for every successful `list_jobs_tool` invocation whose
supplied limit is a non-negative integer (absent defaults to 50),
`summary.total_count` equals the length of the jobs list after the
`include_paused` filter and the `limit` truncation — not the size of the
full remote set — so `total_count ≤ limit` whenever truncation occurred,
and `summary.limited` is true exactly when truncation occurred.  (A
negative truthy limit slices from the end instead, making `limited` true
even when nothing was removed.) -/
theorem list_jobs_summary_correct
    (api : APIRequest → Except CronErr PyVal) (arguments : List (String × PyVal))
    (jobs jobs1 jobs2 : List PyVal) (counts : List (String × Int)) (n : Int)
    (hresp : api ⟨"GET", "/jobs"⟩ = .ok (.list jobs))
    (hlimit : pyDictGetD arguments "limit" (.int 50) = .int n) (hn : 0 ≤ n)
    (hfil : (if pyTruthy (pyDictGetD arguments "include_paused" (.bool true))
      then Except.ok jobs else filterNotPaused jobs) = .ok jobs1)
    (hj2 : jobs2 = if 0 < n ∧ (jobs1.length : Int) > n then jobs1.take n.toNat else jobs1)
    (hcnt : statusCounts [] jobs2 = .ok counts) :
    envGet (list_jobs_tool api arguments).1 "success" = .bool true ∧
    envGet (list_jobs_tool api arguments).1 "jobs" = .list jobs2 ∧
    envGet (envGet (list_jobs_tool api arguments).1 "summary") "total_count" =
      .int jobs2.length ∧
    (envGet (envGet (list_jobs_tool api arguments).1 "summary") "limited" = .bool true ↔
      jobs2.length < jobs1.length) ∧
    (jobs2.length < jobs1.length → (jobs2.length : Int) ≤ n) := by
  by_cases hcond : 0 < n ∧ (jobs1.length : Int) > n
  · have hj2' : jobs2 = jobs1.take n.toNat := by rw [hj2, if_pos hcond]
    have happ : applyLimit jobs1 (.int n) = .ok (jobs2, true) := by
      unfold applyLimit pySliceTo
      have ht : pyTruthy (.int n) = true := by
        simp only [pyTruthy, bne_iff_ne]
        omega
      rw [ht]
      simp only [Bool.not_true, Bool.false_eq_true, if_false]
      rw [if_pos hcond.2, if_pos hn, ← hj2']
    have hlen : jobs2.length = n.toNat := by
      rw [hj2', List.length_take]
      omega
    have hrun := list_jobs_tool_run api arguments jobs jobs1 jobs2 true counts n
      hresp hlimit hfil happ hcnt
    rw [hrun]
    refine ⟨rfl, rfl, rfl, ?_, ?_⟩
    · constructor
      · intro _
        rw [hlen]
        omega
      · intro _
        rfl
    · intro _
      rw [hlen]
      omega
  · have hj2' : jobs2 = jobs1 := by rw [hj2, if_neg hcond]
    have happ : applyLimit jobs1 (.int n) = .ok (jobs2, false) := by
      unfold applyLimit
      by_cases hz : n = 0
      · subst hz
        rw [hj2']
        rfl
      · have ht : pyTruthy (.int n) = true := by
          simp only [pyTruthy, bne_iff_ne]
          omega
        rw [ht]
        simp only [Bool.not_true, Bool.false_eq_true, if_false]
        rw [if_neg (by omega), hj2']
    have hrun := list_jobs_tool_run api arguments jobs jobs1 jobs2 false counts n
      hresp hlimit hfil happ hcnt
    rw [hrun]
    refine ⟨rfl, rfl, rfl, ?_, ?_⟩
    · constructor
      · intro hcontra
        exact absurd hcontra (by simp [envGet, pyDictGetD])
      · intro hlt
        rw [hj2'] at hlt
        omega
    · intro hlt
      rw [hj2'] at hlt
      omega

/-- C10 amended witness: three jobs with limit 2 give a truncated list of
length 2, `limited = true`, `total_count = 2 ≤ 2`. -/
theorem list_jobs_summary_correct_witness :
    envGet (envGet (list_jobs_tool
      (fun _ => .ok (.list [.dict [("status", .str "pending")],
        .dict [("status", .str "pending")], .dict [("status", .str "paused")]]))
      [("limit", .int 2)]).1 "summary") "total_count" = .int 2 ∧
    envGet (envGet (list_jobs_tool
      (fun _ => .ok (.list [.dict [("status", .str "pending")],
        .dict [("status", .str "pending")], .dict [("status", .str "paused")]]))
      [("limit", .int 2)]).1 "summary") "limited" = .bool true := by
  have h := list_jobs_summary_correct
    (fun _ => .ok (.list [.dict [("status", .str "pending")],
      .dict [("status", .str "pending")], .dict [("status", .str "paused")]]))
    [("limit", .int 2)]
    [.dict [("status", .str "pending")], .dict [("status", .str "pending")],
      .dict [("status", .str "paused")]]
    [.dict [("status", .str "pending")], .dict [("status", .str "pending")],
      .dict [("status", .str "paused")]]
    [.dict [("status", .str "pending")], .dict [("status", .str "pending")]]
    [("pending", 2)] 2 rfl rfl (by omega) rfl (by norm_num; rfl) rfl
  refine ⟨?_, h.2.2.2.1.mpr (by norm_num)⟩
  have := h.2.2.1
  simpa using this

theorem clampLogLimit_pos (v : PyVal) : 1 ≤ limitNum (clampLogLimit v) := by
  cases v with
  | int n =>
    simp only [clampLogLimit]
    split_ifs with h
    · norm_num [limitNum]
    · simp only [limitNum]
      omega
  | bool b => cases b <;> norm_num [clampLogLimit, limitNum]
  | none => norm_num [clampLogLimit, limitNum]
  | float q => norm_num [clampLogLimit, limitNum]
  | str s => norm_num [clampLogLimit, limitNum]
  | list l => norm_num [clampLogLimit, limitNum]
  | dict d => norm_num [clampLogLimit, limitNum]

theorem clampLogLimit_default (v : PyVal) (h : ¬ IsPyIntInRange v) :
    clampLogLimit v = .int 20 := by
  cases v with
  | int n =>
    simp only [clampLogLimit]
    rw [if_pos]
    by_contra hc
    push_neg at hc
    exact h (Or.inl ⟨n, rfl, by omega, by omega⟩)
  | bool b =>
    cases b with
    | true => exact absurd (Or.inr rfl) h
    | false => rfl
  | none => rfl
  | float q => rfl
  | str s => rfl
  | list l => rfl
  | dict d => rfl

/-- C7: in `get_job_logs_tool` the effective limit is 20 whenever the
supplied limit is not an integer in `[1, 100]`; and when the backend
returns more logs than the effective limit, exactly `limit` logs are
returned, `summary.limited` is true and `summary.limit_applied` is the
effective limit. -/
theorem get_job_logs_limit_behaviour
    (api : APIRequest → Except CronErr PyVal) (arguments : List (String × PyVal))
    (jid : String) (rd : List (String × PyVal)) (logs : List PyVal)
    (counts : List (String × Int))
    (hjid : validate_job_id (pyDictGetD arguments "job_id" (.str "")) = .ok (.str jid))
    (hresp : api ⟨"GET", "/jobs/" ++ jid ++ "/logs"⟩ = .ok (.dict rd))
    (hlogs : pyDictGetD rd "logs" (.list []) = .list logs)
    (hmore : (logs.length : Int) >
      limitNum (clampLogLimit (pyDictGetD arguments "limit" (.int 20))))
    (hcnt : statusCounts [] (logs.take
      (limitNum (clampLogLimit (pyDictGetD arguments "limit" (.int 20)))).toNat) =
      .ok counts) :
    (¬ IsPyIntInRange (pyDictGetD arguments "limit" (.int 20)) →
      clampLogLimit (pyDictGetD arguments "limit" (.int 20)) = .int 20) ∧
    envGet (get_job_logs_tool api arguments).1 "success" = .bool true ∧
    (∃ l2 : List PyVal, envGet (get_job_logs_tool api arguments).1 "logs" = .list l2 ∧
      (l2.length : Int) =
        limitNum (clampLogLimit (pyDictGetD arguments "limit" (.int 20)))) ∧
    envGet (envGet (get_job_logs_tool api arguments).1 "summary") "limited" =
      .bool true ∧
    envGet (envGet (get_job_logs_tool api arguments).1 "summary") "limit_applied" =
      clampLogLimit (pyDictGetD arguments "limit" (.int 20)) := by
  have hpos : 1 ≤ limitNum (clampLogLimit (pyDictGetD arguments "limit" (.int 20))) :=
    clampLogLimit_pos _
  have hslice : pySliceTo logs
      (limitNum (clampLogLimit (pyDictGetD arguments "limit" (.int 20)))) =
      logs.take (limitNum (clampLogLimit (pyDictGetD arguments "limit" (.int 20)))).toNat := by
    unfold pySliceTo
    rw [if_pos (by omega)]
  have hrun : (get_job_logs_tool api arguments).1 =
      .dict [("success", .bool true),
        ("logs", .list (logs.take
          (limitNum (clampLogLimit (pyDictGetD arguments "limit" (.int 20)))).toNat)),
        ("job", pyDictGetD rd "job" (.dict [])),
        ("summary", .dict [("total_logs_returned", .int (logs.take
            (limitNum (clampLogLimit (pyDictGetD arguments "limit" (.int 20)))).toNat).length),
          ("status_breakdown", countsDict counts),
          ("recent_executions", .int (logs.take
            (limitNum (clampLogLimit (pyDictGetD arguments "limit" (.int 20)))).toNat).length),
          ("limited", .bool true),
          ("limit_applied", clampLogLimit (pyDictGetD arguments "limit" (.int 20)))]),
        ("message", .str ("Retrieved " ++ toString (logs.take
            (limitNum (clampLogLimit (pyDictGetD arguments "limit" (.int 20)))).toNat).length ++
          " log entr" ++
          (if (logs.take (limitNum (clampLogLimit
            (pyDictGetD arguments "limit" (.int 20)))).toNat).length != 1
            then "ies" else "y") ++ " for job " ++ sQuote ++
          pyToStr (match pyDictGetD rd "job" (.dict []) with
            | .dict jd => pyDictGetD jd "name" (.str jid)
            | _ => .str jid) ++ sQuote))] := by
    unfold get_job_logs_tool
    rw [hjid]
    simp only [pyStrOf]
    rw [hresp]
    simp only
    rw [hlogs]
    simp only
    rw [if_pos hmore, hslice, hcnt]
    rfl
  have hlen : (logs.take
      (limitNum (clampLogLimit (pyDictGetD arguments "limit" (.int 20)))).toNat).length =
      (limitNum (clampLogLimit (pyDictGetD arguments "limit" (.int 20)))).toNat := by
    rw [List.length_take]
    omega
  refine ⟨fun hn => clampLogLimit_default _ hn, ?_, ?_, ?_, ?_⟩
  · rw [hrun]; rfl
  · refine ⟨_, by rw [hrun]; rfl, ?_⟩
    rw [hlen]
    omega
  · rw [hrun]; rfl
  · rw [hrun]; rfl

/-- C7 witness: `limit = 150` clamps to 20; with 21 available logs the
handler returns `limited = true` and `limit_applied = 20`. -/
theorem get_job_logs_limit_behaviour_witness :
    clampLogLimit (.int 150) = .int 20 ∧
    envGet (envGet (get_job_logs_tool
      (fun _ => .ok (.dict [("logs",
        .list (List.replicate 21 (.dict [("status", .str "success")]))),
        ("job", .dict [("name", .str "my-job")])]))
      [("job_id", .str "abc"), ("limit", .int 150)]).1 "summary") "limit_applied" =
      .int 20 ∧
    envGet (envGet (get_job_logs_tool
      (fun _ => .ok (.dict [("logs",
        .list (List.replicate 21 (.dict [("status", .str "success")]))),
        ("job", .dict [("name", .str "my-job")])]))
      [("job_id", .str "abc"), ("limit", .int 150)]).1 "summary") "limited" =
      .bool true := by
  have h := get_job_logs_limit_behaviour
    (fun _ => .ok (.dict [("logs",
      .list (List.replicate 21 (.dict [("status", .str "success")]))),
      ("job", .dict [("name", .str "my-job")])]))
    [("job_id", .str "abc"), ("limit", .int 150)] "abc"
    [("logs", .list (List.replicate 21 (.dict [("status", .str "success")]))),
      ("job", .dict [("name", .str "my-job")])]
    (List.replicate 21 (.dict [("status", .str "success")]))
    [("success", 20)] rfl rfl rfl (by decide) rfl
  refine ⟨?_, ?_, h.2.2.2.1⟩
  · exact h.1 (by
      intro hc
      rcases hc with ⟨n, hn, _, h2⟩ | hb
      · cases hn
        omega
      · exact PyVal.noConfusion hb)
  · exact h.2.2.2.2
